import Mathlib

/-!
# Model output decoding: selectors, pulse encoder, polynomial fit, record assemblers

A shallow embedding of `selfdrive/modeld/models/driving.cc`.

Conventions of the embedding.

* A C `float` is an element of a linearly ordered field `K` (exact arithmetic:
  no rounding, no NaN, no infinities).  Every definition is computable once `K`
  is, and the concrete evaluations below are carried out at `K = ℚ`.
* A `float *` is the buffer it points into, read as a function `Nat → K`, together
  with an offset; the selectors return the offset of the pointer they compute,
  measured from the start of the segment they were given.
* `for (int i = lo; i < hi; ++i) body` is `forLoop body lo (hi - lo)`.
* The constants of `driving.h` (which is not among the sources) are parameters
  of the definitions that use them, singly or gathered in `Header`; only
  `TRAJECTORY_SIZE` and `POLYFIT_DEGREE` are fixed, to the values the literals of
  `driving.cc` pin down.
* The functions `exp`, `sigmoid` and the least-squares solve are arbitrary functions,
  gathered in `Extern`; the square root is only ever taken of a square.
* A `uint32_t` is a natural number below `2^32`, with subtraction modulo `2^32`.
-/

namespace Driving

/-! ## Definitions -/

/-- The loop `for (int i = lo; n-- > 0; ++i) s = body i s`: `n` iterations of `body`
starting at counter `lo`. -/
def forLoop {σ : Type} (body : Nat → σ → σ) : Nat → Nat → σ → σ
  | _, 0, s => s
  | lo, n + 1, s => forLoop body (lo + 1) n (body lo s)

section Selectors

variable {K : Type} [LinearOrderedField K]

/-- One iteration of the loop of `get_plan_data` (driving.cc:152-154): `cur` is
`&plan[i * PLAN_MHP_GROUP_SIZE - 1]`, and `data` moves to `cur` when `*cur > *data`. -/
def get_plan_data_step (PLAN_MHP_GROUP_SIZE : Nat) (plan : Nat → K) (i data : Nat) : Nat :=
  let cur := i * PLAN_MHP_GROUP_SIZE - 1
  if plan cur > plan data then cur else data

/-- The function `get_plan_data` (driving.cc:149-157).  The result is the offset of the
returned pointer from `plan`; the loop is seeded with `&plan[0]`. -/
def get_plan_data (PLAN_MHP_N PLAN_MHP_GROUP_SIZE : Nat) (plan : Nat → K) : Nat :=
  forLoop (get_plan_data_step PLAN_MHP_GROUP_SIZE plan) 1 (PLAN_MHP_N - 1) 0

/-- One iteration of the loop of `get_lead_data` (driving.cc:162-165): `cur` is
`&lead[i * LEAD_MHP_GROUP_SIZE + t_offset - LEAD_MHP_SELECTION]`. -/
def get_lead_data_step (LEAD_MHP_GROUP_SIZE LEAD_MHP_SELECTION : Nat) (lead : Nat → K)
    (t_offset : Nat) (i data : Nat) : Nat :=
  let cur := i * LEAD_MHP_GROUP_SIZE + t_offset - LEAD_MHP_SELECTION
  if lead cur > lead data then cur else data

/-- The function `get_lead_data` (driving.cc:159-168).  The result is the offset of the
returned pointer from `lead`; the loop is seeded with `&lead[0]`. -/
def get_lead_data (LEAD_MHP_N LEAD_MHP_GROUP_SIZE LEAD_MHP_SELECTION : Nat) (lead : Nat → K)
    (t_offset : Nat) : Nat :=
  forLoop (get_lead_data_step LEAD_MHP_GROUP_SIZE LEAD_MHP_SELECTION lead t_offset) 1
    (LEAD_MHP_N - 1) 0

/-- The terminal confidence scalar of plan group `k`: the last float of the group. -/
def plan_score (PLAN_MHP_GROUP_SIZE : Nat) (plan : Nat → K) (k : Nat) : K :=
  plan (k * PLAN_MHP_GROUP_SIZE + (PLAN_MHP_GROUP_SIZE - 1))

/-- The bucket-`t` existence score of lead group `k`: the float at position
`LEAD_MHP_GROUP_SIZE - LEAD_MHP_SELECTION + t` of the group. -/
def lead_score (LEAD_MHP_GROUP_SIZE LEAD_MHP_SELECTION : Nat) (lead : Nat → K) (t k : Nat) : K :=
  lead (k * LEAD_MHP_GROUP_SIZE + (LEAD_MHP_GROUP_SIZE - LEAD_MHP_SELECTION + t))

/-- The candidate group a pointer at offset `off` lies in, for groups of `size` floats. -/
def group_of (size off : Nat) : Nat := off / size

end Selectors

section Desire

variable {K : Type} [LinearOrderedField K]

/-- The part of `ModelState` that the command input touches: the previous frame's raw
command `prev_desire` and the pulse vector `pulse_desire` handed to the network, both
arrays of `DESIRE_LEN` floats, read as functions of the channel index. -/
structure ModelState (K : Type) where
  /-- The array `s->prev_desire`. -/
  prev_desire : Nat → K
  /-- The array `s->pulse_desire`. -/
  pulse_desire : Nat → K

/-- The state set up by `model_init` (driving.cc:50-54): `std::make_unique<float[]>`
value-initialises both arrays, so every channel starts at zero. -/
def model_init_state : ModelState K :=
  { prev_desire := fun _ => 0, pulse_desire := fun _ => 0 }

/-- The body of the loop of `model_eval_frame` for channel `i` (driving.cc:81-86). -/
def desire_step (desire_in : Nat → K) (i : Nat) (s : ModelState K) : ModelState K :=
  let s1 : ModelState K :=
    if desire_in i - s.prev_desire i > 99 / 100 then
      { s with pulse_desire := Function.update s.pulse_desire i (desire_in i) }
    else
      { s with pulse_desire := Function.update s.pulse_desire i 0 }
  { s1 with prev_desire := Function.update s1.prev_desire i (desire_in i) }

/-- The command-input block of `model_eval_frame` (driving.cc:76-89), with `DESIRE`
defined.  `desire_in` is `none` for a null pointer.  The loop runs over the channels
`1 ≤ i < DESIRE_LEN`.  The rest of the function (frame window, inference) does not write
to `prev_desire` or `pulse_desire`. -/
def model_eval_frame (DESIRE_LEN : Nat) (s : ModelState K) (desire_in : Option (Nat → K)) :
    ModelState K :=
  match desire_in with
  | none => s
  | some d => forLoop (desire_step d) 1 (DESIRE_LEN - 1) s

/-- The state after `model_init` followed by one `model_eval_frame` call per command
vector of `frames`, oldest first. -/
def run_frames (DESIRE_LEN : Nat) (frames : List (Nat → K)) : ModelState K :=
  frames.foldl (fun s d => model_eval_frame DESIRE_LEN s (some d)) model_init_state

end Desire

section ValidLen

variable {K : Type} [LinearOrderedField K]

/-- The number of samples of a trajectory: `TRAJECTORY_SIZE` of `driving.h`, which is 33
in the layout constants of driving.cc (`4*2*2*33`, `30 * (33 + i) + 16`). -/
abbrev TRAJECTORY_SIZE : Nat := 33

/-- The constant `MIN_VALID_LEN` (driving.cc:12). -/
def MIN_VALID_LEN : Nat := 10

/-- The first loop of the legacy `fill_model` (driving.cc:317-322): starting from 0, the
running value is replaced by `best_plan[30*i]` whenever that sample is `>=` it, for
`1 ≤ i < TRAJECTORY_SIZE`. -/
def valid_len_scan (best_plan : Nat → K) : K :=
  forLoop (fun i valid_len => if best_plan (30 * i) ≥ valid_len then best_plan (30 * i) else valid_len)
    1 (TRAJECTORY_SIZE - 1) 0

/-- The clamp of driving.cc:324,
`fmin(MODEL_PATH_DISTANCE, fmax(MIN_VALID_LEN, valid_len))`. -/
def valid_len_clamp (MODEL_PATH_DISTANCE : Nat) (valid_len : K) : K :=
  min (MODEL_PATH_DISTANCE : K) (max (MIN_VALID_LEN : K) valid_len)

/-- The `valid_len` of the legacy `fill_model` (driving.cc:315-324): the plan is selected
by `get_plan_data`, scanned relative to the pointer it returns, and clamped. -/
def fill_model_valid_len (PLAN_MHP_N PLAN_MHP_GROUP_SIZE MODEL_PATH_DISTANCE : Nat)
    (plan : Nat → K) : K :=
  let best_plan := fun k => plan (get_plan_data PLAN_MHP_N PLAN_MHP_GROUP_SIZE plan + k)
  valid_len_clamp MODEL_PATH_DISTANCE (valid_len_scan best_plan)

end ValidLen

section PolyFit

variable {K : Type} [LinearOrderedField K]

/-- The degree constant `POLYFIT_DEGREE` of `driving.h`: `poly_fit` writes the offset to
`out[3]` as the slot after the `POLYFIT_DEGREE - 1` solved coefficients, which fixes 4. -/
abbrev POLYFIT_DEGREE : Nat := 4

/-- The globals `vander`, `X_IDXS` and `T_IDXS` (driving.cc:33-35), zero before
`model_init` as every object of static storage is. -/
structure Globals (K : Type) where
  /-- The matrix `vander`, by row and column. -/
  vander : Nat → Nat → K
  /-- The distance grid `X_IDXS`. -/
  X_IDXS : Nat → K
  /-- The time grid `T_IDXS`. -/
  T_IDXS : Nat → K

/-- The body of the inner loop of `model_init` (driving.cc:65-67), `TRAJECTORY_DISTANCE`
being 192 and `TRAJECTORY_TIME` 10. -/
def vander_step (i j : Nat) (g : Globals K) : Globals K :=
  let g1 : Globals K := { g with X_IDXS := Function.update g.X_IDXS i ((192 / 1024) * (i : K) ^ 2) }
  let g2 : Globals K := { g1 with T_IDXS := Function.update g1.T_IDXS i ((10 / 1024) * (i : K) ^ 2) }
  { g2 with vander := fun r c =>
      if r = i ∧ c = j then g2.X_IDXS i ^ (POLYFIT_DEGREE - j - 1) else g2.vander r c }

/-- The loops of `model_init` that build the grids and the basis matrix
(driving.cc:62-69). -/
def model_init_globals : Globals K :=
  forLoop (fun i g => forLoop (vander_step i) 0 (POLYFIT_DEGREE - 1) g) 0 TRAJECTORY_SIZE
    { vander := fun _ _ => 0, X_IDXS := fun _ => 0, T_IDXS := fun _ => 0 }

/-- The value of `sqrt` at a square `a * a`, the only kind of argument `poly_fit` gives
it: in exact arithmetic that is `|a|`. -/
def sqrt_of_square (a : K) : K := |a|

/-- The matrix `lhs` of driving.cc:134: the first `valid_len` rows of `vander`, each
divided by that row's standard deviation. -/
def poly_fit_lhs (vander : Nat → Nat → K) (in_stds : Nat → K) (valid_len : Nat) :
    Matrix (Fin valid_len) (Fin (POLYFIT_DEGREE - 1)) K :=
  fun i j => vander i j / in_stds i

/-- The vector `rhs` of driving.cc:130-135: the points minus the first one, each divided
by its standard deviation. -/
def poly_fit_rhs (in_pts in_stds : Nat → K) (valid_len : Nat) : Fin valid_len → K :=
  fun i => (in_pts i - in_pts 0) / in_stds i

/-- The vector `scale` of driving.cc:138,
`1. / (lhs.array()*lhs.array()).sqrt().colwise().sum()`: the square root is taken entry
by entry, then each column is summed. -/
def poly_fit_scale {n : Nat} (lhs : Matrix (Fin n) (Fin (POLYFIT_DEGREE - 1)) K) :
    Fin (POLYFIT_DEGREE - 1) → K :=
  fun j => 1 / ∑ i, sqrt_of_square (lhs i j)

/-- The rescaled matrix of driving.cc:139, `lhs * scale.asDiagonal()`. -/
def poly_fit_scaled {n : Nat} (lhs : Matrix (Fin n) (Fin (POLYFIT_DEGREE - 1)) K) :
    Matrix (Fin n) (Fin (POLYFIT_DEGREE - 1)) K :=
  fun i j => lhs i j * poly_fit_scale lhs j

/-- The function `poly_fit` (driving.cc:124-147).  `solve n A b` stands for
`A.colPivHouseholderQr().solve(b)` on a system of `n` rows.  The result is the array
`out`: the solved coefficients times `scale` in slots 0..2, `y0` in slot 3. -/
def poly_fit
    (solve : (n : Nat) → Matrix (Fin n) (Fin (POLYFIT_DEGREE - 1)) K → (Fin n → K) →
      Fin (POLYFIT_DEGREE - 1) → K)
    (vander : Nat → Nat → K) (in_pts in_stds : Nat → K) (valid_len : Nat) : Nat → K :=
  let y0 := in_pts 0
  let lhs0 := poly_fit_lhs vander in_stds valid_len
  let rhs := poly_fit_rhs in_pts in_stds valid_len
  let scale := poly_fit_scale lhs0
  let lhs := poly_fit_scaled lhs0
  let p := solve valid_len lhs rhs
  fun k =>
    if h : k < POLYFIT_DEGREE - 1 then p ⟨k, h⟩ * scale ⟨k, h⟩
    else if k = 3 then y0 else 0

/-- The value of the fitted cubic `out[0]*x^3 + out[1]*x^2 + out[2]*x + out[3]`. -/
def poly_eval (out : Nat → K) (x : K) : K :=
  out 0 * x ^ 3 + out 1 * x ^ 2 + out 2 * x + out 3

/-- The sum of squared residuals of `x` for the system `A x = b`. -/
def residual {n m : Nat} (A : Matrix (Fin n) (Fin m) K) (b : Fin n → K) (x : Fin m → K) : K :=
  ∑ i, (A.mulVec x i - b i) ^ 2

/-- A least-squares solution of `A x = b`: no vector has a smaller sum of squared
residuals. -/
def IsLeastSquares {n m : Nat} (A : Matrix (Fin n) (Fin m) K) (b : Fin n → K)
    (x : Fin m → K) : Prop :=
  ∀ y, residual A b x ≤ residual A b y

/-- The coefficient vector `(0, 0, a / scale[2])`: the solution of the rescaled system
that `poly_fit` builds from points on a line of slope `a`. -/
def linear_fit_solution (a : K) (vander : Nat → Nat → K) (in_stds : Nat → K) (valid_len : Nat) :
    Fin (POLYFIT_DEGREE - 1) → K :=
  fun j => if j.val = 2 then a / poly_fit_scale (poly_fit_lhs vander in_stds valid_len) j else 0

end PolyFit

section Decode

variable {K : Type} [LinearOrderedField K]

/-- The constants of `driving.h` that the record assemblers use. -/
structure Header where
  /-- The number of plan hypotheses. -/
  PLAN_MHP_N : Nat
  /-- The number of floats of one plan group. -/
  PLAN_MHP_GROUP_SIZE : Nat
  /-- The number of columns of one plan sample. -/
  PLAN_MHP_COLUMNS : Nat
  /-- The number of lead hypotheses. -/
  LEAD_MHP_N : Nat
  /-- The number of floats of one lead group. -/
  LEAD_MHP_GROUP_SIZE : Nat
  /-- The number of temporal buckets of a lead group. -/
  LEAD_MHP_SELECTION : Nat
  /-- The number of components of a lead state vector. -/
  LEAD_MHP_VALS : Nat
  /-- The number of rows of `vander` and the upper clamp of `valid_len`. -/
  MODEL_PATH_DISTANCE : Nat

/-- The functions the assemblers call that are defined outside `driving.cc`: `exp` of the
C library, `sigmoid` of the model headers, and the least-squares solve of `poly_fit`. -/
structure Extern (K : Type) where
  /-- The function `exp`. -/
  exp : K → K
  /-- The function `sigmoid`. -/
  sigmoid : K → K
  /-- The call `A.colPivHouseholderQr().solve(b)` on a system of `n` rows. -/
  solve : (n : Nat) → Matrix (Fin n) (Fin (POLYFIT_DEGREE - 1)) K → (Fin n → K) →
    Fin (POLYFIT_DEGREE - 1) → K

/-- The views of `ModelDataRaw` that the assemblers read, each a segment of the output
buffer indexed from its own start. -/
structure ModelDataRaw (K : Type) where
  /-- The segment `plan`. -/
  plan : Nat → K
  /-- The segment `lane_lines`. -/
  lane_lines : Nat → K
  /-- The segment `lane_lines_prob`. -/
  lane_lines_prob : Nat → K
  /-- The segment `road_edges`. -/
  road_edges : Nat → K
  /-- The segment `lead`. -/
  lead : Nat → K
  /-- The segment `lead_prob`. -/
  lead_prob : Nat → K
  /-- The segment `pose`. -/
  pose : Nat → K

/-- The second loop of the legacy `fill_model` (driving.cc:325-330): `valid_len_idx`
starts at 0 and is set to `i` whenever `valid_len >= X_IDXS[valid_len_idx]`, for
`1 ≤ i < TRAJECTORY_SIZE`. -/
def valid_len_idx_scan (X_IDXS : Nat → K) (valid_len : K) : Nat :=
  forLoop (fun i valid_len_idx => if valid_len ≥ X_IDXS valid_len_idx then i else valid_len_idx)
    1 (TRAJECTORY_SIZE - 1) 0

/-- The fields of `cereal::ModelData::PathData` that `fill_path` sets. -/
structure PathData (K : Type) where
  /-- The field `poly`. -/
  poly : Nat → K
  /-- The field `prob`. -/
  prob : K
  /-- The field `std`. -/
  std : K
  /-- The field `validLen`. -/
  validLen : K

/-- The local arrays `points` and `stds` of `fill_path`. -/
structure PathArrays (K : Type) where
  /-- The array `points`. -/
  points : Nat → K
  /-- The array `stds`. -/
  stds : Nat → K

/-- The body of the loop of `fill_path` (driving.cc:176-183). -/
def fill_path_step (e : Extern K) (data : Nat → K) (ll_idx : Nat) (i : Nat) (a : PathArrays K) :
    PathArrays K :=
  if ll_idx = 0 then
    { points := Function.update a.points i (-data (30 * i + 16)),
      stds := Function.update a.stds i (e.exp (data (30 * (33 + i) + 16))) }
  else
    { points := Function.update a.points i (-data (2 * 33 * ll_idx + 2 * i)),
      stds := Function.update a.stds i (e.exp (data (2 * 33 * (4 + ll_idx) + 2 * i))) }

/-- The function `fill_path` (driving.cc:170-191); `vander` is the global basis matrix. -/
def fill_path (e : Extern K) (vander : Nat → Nat → K) (data : Nat → K) (prob valid_len : K)
    (valid_len_idx ll_idx : Nat) : PathData K :=
  let a := forLoop (fill_path_step e data ll_idx) 0 TRAJECTORY_SIZE
    { points := fun _ => 0, stds := fun _ => 0 }
  let poly := poly_fit e.solve vander a.points a.stds valid_len_idx
  { poly := poly, prob := prob, std := a.stds 0, validLen := valid_len }

/-- The fields of `cereal::ModelDataV2::LeadDataV2` that `fill_lead_v2` sets. -/
structure LeadDataV2 (K : Type) where
  /-- The field `t`. -/
  t : K
  /-- The field `prob`. -/
  prob : K
  /-- The field `xyva`. -/
  xyva : Nat → K
  /-- The field `xyvaStd`. -/
  xyvaStd : Nat → K

/-- The local arrays `xyva` and `xyva_stds` of `fill_lead_v2`. -/
structure LeadArrays (K : Type) where
  /-- The array `xyva`. -/
  xyva : Nat → K
  /-- The array `xyva_stds`. -/
  xyva_stds : Nat → K

/-- The body of the loop of `fill_lead_v2` (driving.cc:197-198); `data` is the view from
the pointer that `get_lead_data` returned. -/
def fill_lead_v2_step (e : Extern K) (LEAD_MHP_VALS : Nat) (data : Nat → K) (i : Nat)
    (a : LeadArrays K) : LeadArrays K :=
  { xyva := Function.update a.xyva i (data (LEAD_MHP_VALS + i)),
    xyva_stds := Function.update a.xyva_stds i (e.exp (data (LEAD_MHP_VALS + i))) }

/-- The function `fill_lead_v2` (driving.cc:193-204).  The float `t` is converted to the
`int t_offset` of `get_lead_data`; for the non-negative values it takes that is the
floor. -/
def fill_lead_v2 [FloorRing K] (e : Extern K) (h : Header) (lead_data : Nat → K) (prob t : K) :
    LeadDataV2 K :=
  let off := get_lead_data h.LEAD_MHP_N h.LEAD_MHP_GROUP_SIZE h.LEAD_MHP_SELECTION lead_data ⌊t⌋₊
  let data := fun k => lead_data (off + k)
  let a := forLoop (fill_lead_v2_step e h.LEAD_MHP_VALS data) 0 h.LEAD_MHP_VALS
    { xyva := fun _ => 0, xyva_stds := fun _ => 0 }
  { t := t, prob := e.sigmoid prob, xyva := a.xyva, xyvaStd := a.xyva_stds }

/-- The fields of `cereal::ModelData::LeadData` that `fill_lead` sets. -/
structure LeadData (K : Type) where
  /-- The field `prob`. -/
  prob : K
  /-- The field `dist`. -/
  dist : K
  /-- The field `std`. -/
  std : K
  /-- The field `relY`. -/
  relY : K
  /-- The field `relYStd`. -/
  relYStd : K
  /-- The field `relVel`. -/
  relVel : K
  /-- The field `relVelStd`. -/
  relVelStd : K
  /-- The field `relA`. -/
  relA : K
  /-- The field `relAStd`. -/
  relAStd : K

/-- The function `fill_lead` (driving.cc:206-218). -/
def fill_lead (e : Extern K) (h : Header) (lead_data prob : Nat → K) (t_offset : Nat) :
    LeadData K :=
  let off := get_lead_data h.LEAD_MHP_N h.LEAD_MHP_GROUP_SIZE h.LEAD_MHP_SELECTION lead_data
    t_offset
  let data := fun k => lead_data (off + k)
  { prob := e.sigmoid (prob t_offset),
    dist := data 0,
    std := e.exp (data h.LEAD_MHP_VALS),
    relY := -data 1,
    relYStd := e.exp (data (h.LEAD_MHP_VALS + 1)),
    relVel := data 2,
    relVelStd := e.exp (data (h.LEAD_MHP_VALS + 2)),
    relA := data 3,
    relAStd := e.exp (data (h.LEAD_MHP_VALS + 3)) }

/-- The fields of `cereal::ModelDataV2::XYZTData` that `fill_xyzt` sets. -/
structure XYZTData (K : Type) where
  /-- The array `x`. -/
  x : Nat → K
  /-- The array `y`. -/
  y : Nat → K
  /-- The array `z`. -/
  z : Nat → K
  /-- The array `t`. -/
  t : Nat → K

/-- The element `data[i*columns + c + column_offset]`: the index is computed in `int`,
where `column_offset` may be -1. -/
def xyzt_read (data : Nat → K) (columns : Nat) (column_offset : Int) (i c : Nat) : K :=
  data (Int.toNat ((i : Int) * (columns : Int) + (c : Int) + column_offset))

/-- The body of the loop of `fill_xyzt` (driving.cc:245-258). -/
def fill_xyzt_step (g : Globals K) (data : Nat → K) (columns : Nat) (column_offset : Int)
    (plan_t : Nat → K) (i : Nat) (a : XYZTData K) : XYZTData K :=
  let a1 : XYZTData K :=
    if column_offset ≥ 0 then
      { a with t := Function.update a.t i (g.T_IDXS i),
               x := Function.update a.x i (xyzt_read data columns column_offset i 0) }
    else
      { a with t := Function.update a.t i (plan_t i),
               x := Function.update a.x i (g.X_IDXS i) }
  { a1 with y := Function.update a1.y i (xyzt_read data columns column_offset i 1),
            z := Function.update a1.z i (xyzt_read data columns column_offset i 2) }

/-- The function `fill_xyzt` (driving.cc:237-267); `g` holds the global grids. -/
def fill_xyzt (g : Globals K) (data : Nat → K) (columns : Nat) (column_offset : Int)
    (plan_t : Nat → K) : XYZTData K :=
  forLoop (fill_xyzt_step g data columns column_offset plan_t) 0 TRAJECTORY_SIZE
    { x := fun _ => 0, y := fun _ => 0, z := fun _ => 0, t := fun _ => 0 }

/-- The array `t_offsets` of the V2 `fill_model` (driving.cc:307). -/
def t_offsets : Nat → K :=
  fun k => if k = 0 then 0 else if k = 1 then 2 else if k = 2 then 4 else 0

/-- The array `plan_t` of the V2 `fill_model` (driving.cc:272-275). -/
def fill_model_plan_t (h : Header) (best_plan : Nat → K) : Nat → K :=
  forLoop (fun i a => Function.update a i (best_plan (i * h.PLAN_MHP_COLUMNS + 15))) 0
    TRAJECTORY_SIZE (fun _ => 0)

/-- The fields of `cereal::ModelDataV2` that the V2 `fill_model` sets, the meta record
apart, which `fill_meta` alone writes. -/
structure ModelDataV2 (K : Type) where
  /-- The field `position`. -/
  position : XYZTData K
  /-- The field `velocity`. -/
  velocity : XYZTData K
  /-- The field `orientation`. -/
  orientation : XYZTData K
  /-- The field `orientationRate`. -/
  orientationRate : XYZTData K
  /-- The list `laneLines`. -/
  laneLines : List (XYZTData K)
  /-- The list `laneLineProbs`. -/
  laneLineProbs : List K
  /-- The list `laneLineStds`. -/
  laneLineStds : List K
  /-- The list `roadEdges`. -/
  roadEdges : List (XYZTData K)
  /-- The list `roadEdgeStds`. -/
  roadEdgeStds : List K
  /-- The list `leads`. -/
  leads : List (LeadDataV2 K)

/-- The V2 `fill_model` (driving.cc:269-311).  Each list is filled by a loop whose
iteration `i` writes element `i` alone. -/
def fill_model_v2 [FloorRing K] (e : Extern K) (h : Header) (g : Globals K)
    (net_outputs : ModelDataRaw K) : ModelDataV2 K :=
  let off := get_plan_data h.PLAN_MHP_N h.PLAN_MHP_GROUP_SIZE net_outputs.plan
  let best_plan := fun k => net_outputs.plan (off + k)
  let plan_t := fill_model_plan_t h best_plan
  { position := fill_xyzt g best_plan h.PLAN_MHP_COLUMNS 0 plan_t,
    velocity := fill_xyzt g best_plan h.PLAN_MHP_COLUMNS 3 plan_t,
    orientation := fill_xyzt g best_plan h.PLAN_MHP_COLUMNS 9 plan_t,
    orientationRate := fill_xyzt g best_plan h.PLAN_MHP_COLUMNS 12 plan_t,
    laneLines := (List.range 4).map (fun i =>
      fill_xyzt g (fun k => net_outputs.lane_lines (i * TRAJECTORY_SIZE * 2 + k)) 2 (-1) plan_t),
    laneLineProbs := (List.range 4).map (fun i => e.sigmoid (net_outputs.lane_lines_prob i)),
    laneLineStds := (List.range 4).map (fun i =>
      e.exp (net_outputs.lane_lines (2 * TRAJECTORY_SIZE * (4 + i)))),
    roadEdges := (List.range 2).map (fun i =>
      fill_xyzt g (fun k => net_outputs.road_edges (i * TRAJECTORY_SIZE * 2 + k)) 2 (-1) plan_t),
    roadEdgeStds := (List.range 2).map (fun i =>
      e.exp (net_outputs.road_edges (2 * TRAJECTORY_SIZE * (2 + i)))),
    leads := (List.range h.LEAD_MHP_SELECTION).map (fun t_offset =>
      fill_lead_v2 e h net_outputs.lead (net_outputs.lead_prob t_offset) (t_offsets t_offset)) }

/-- The fields of `cereal::ModelData` that the legacy `fill_model` sets, the meta record
apart. -/
structure ModelData (K : Type) where
  /-- The field `path`. -/
  path : PathData K
  /-- The field `leftLane`. -/
  leftLane : PathData K
  /-- The field `rightLane`. -/
  rightLane : PathData K
  /-- The field `lead`. -/
  lead : LeadData K
  /-- The field `leadFuture`. -/
  leadFuture : LeadData K

/-- The legacy `fill_model` (driving.cc:313-339). -/
def fill_model (e : Extern K) (h : Header) (g : Globals K) (net_outputs : ModelDataRaw K) :
    ModelData K :=
  let off := get_plan_data h.PLAN_MHP_N h.PLAN_MHP_GROUP_SIZE net_outputs.plan
  let best_plan := fun k => net_outputs.plan (off + k)
  let valid_len := valid_len_clamp h.MODEL_PATH_DISTANCE (valid_len_scan best_plan)
  let valid_len_idx := valid_len_idx_scan g.X_IDXS valid_len
  { path := fill_path e g.vander best_plan 1 valid_len valid_len_idx 0,
    leftLane := fill_path e g.vander net_outputs.lane_lines (net_outputs.lane_lines_prob 1)
      valid_len valid_len_idx 1,
    rightLane := fill_path e g.vander net_outputs.lane_lines (net_outputs.lane_lines_prob 2)
      valid_len valid_len_idx 2,
    lead := fill_lead e h net_outputs.lead net_outputs.lead_prob 0,
    leadFuture := fill_lead e h net_outputs.lead net_outputs.lead_prob 1 }

end Decode

section Publish

variable {K : Type} [LinearOrderedField K]

/-- The frame metadata that `model_publish` attaches to both records
(driving.cc:344-352); the identifiers are `uint32_t`, the timestamp `uint64_t`. -/
structure FrameMeta (K : Type) where
  /-- The field `frameId`. -/
  frameId : Nat
  /-- The field `frameAge`. -/
  frameAge : Nat
  /-- The field `frameDropPerc`. -/
  frameDropPerc : K
  /-- The field `timestampEof`. -/
  timestampEof : Nat
  /-- The field `modelExecutionTime`. -/
  modelExecutionTime : K

/-- The `frame_age` of `model_publish` (driving.cc:344): the subtraction is the one of
`uint32_t`, modulo `2^32`. -/
def frame_age (vipc_frame_id frame_id : Nat) : Nat :=
  if frame_id > vipc_frame_id then (frame_id + 2 ^ 32 - vipc_frame_id) % 2 ^ 32 else 0

/-- The metadata part of `model_publish` (driving.cc:341-352). -/
def model_publish_meta (vipc_frame_id frame_id : Nat) (frame_drop : K) (timestamp_eof : Nat)
    (model_execution_time : K) : FrameMeta K :=
  { frameId := vipc_frame_id,
    frameAge := frame_age vipc_frame_id frame_id,
    frameDropPerc := frame_drop * 100,
    timestampEof := timestamp_eof,
    modelExecutionTime := model_execution_time }

/-- The local arrays of `posenet_publish`. -/
structure PoseArrays (K : Type) where
  /-- The array `trans`. -/
  trans : Nat → K
  /-- The array `trans_std`. -/
  trans_std : Nat → K
  /-- The array `rot`. -/
  rot : Nat → K
  /-- The array `rot_std`. -/
  rot_std : Nat → K

/-- The camera-odometry event that `posenet_publish` sends. -/
structure CameraOdometryEvent (K : Type) where
  /-- The validity flag of the event. -/
  valid : Bool
  /-- The field `trans`. -/
  trans : Nat → K
  /-- The field `rot`. -/
  rot : Nat → K
  /-- The field `transStd`. -/
  transStd : Nat → K
  /-- The field `rotStd`. -/
  rotStd : Nat → K
  /-- The field `timestampEof`. -/
  timestampEof : Nat
  /-- The field `frameId`. -/
  frameId : Nat

/-- Modelled from the spec: `MessageBuilder::initEvent(bool valid)` belongs to the
messaging library, which is not among the sources; it starts an event whose validity
flag is its argument. -/
def initEvent (valid : Bool) : Bool := valid

/-- The function `posenet_publish` (driving.cc:363-387). -/
def posenet_publish (e : Extern K) (vipc_frame_id vipc_dropped_frames : Nat)
    (net_outputs : ModelDataRaw K) (timestamp_eof : Nat) : CameraOdometryEvent K :=
  let a := forLoop (fun i (a : PoseArrays K) =>
      { trans := Function.update a.trans i (net_outputs.pose i),
        trans_std := Function.update a.trans_std i (e.exp (net_outputs.pose (6 + i))),
        rot := Function.update a.rot i (net_outputs.pose (3 + i)),
        rot_std := Function.update a.rot_std i (e.exp (net_outputs.pose (9 + i))) })
    0 3 { trans := fun _ => 0, trans_std := fun _ => 0, rot := fun _ => 0, rot_std := fun _ => 0 }
  { valid := initEvent (decide (vipc_dropped_frames < 1)),
    trans := a.trans, rot := a.rot, transStd := a.trans_std, rotStd := a.rot_std,
    timestampEof := timestamp_eof, frameId := vipc_frame_id }

end Publish

section Inputs

/-- A plan segment of five groups of 1981 floats that is zero except for the terminal
confidence of the last group, which is 1. -/
def planLastBest : Nat → ℚ := fun k => if k = 4 * 1981 + 1980 then 1 else 0

/-- A lead segment of five groups of 11 floats (three buckets) that is zero except for
the bucket-1 existence score of the last group, which is 1. -/
def leadLastBest : Nat → ℚ := fun k => if k = 4 * 11 + 9 then 1 else 0

/-- A plan segment that is zero except for the terminal confidence of group 0. -/
def planFirstScore : Nat → ℚ := fun k => if k = 1980 then 1 else 0

/-- A lead segment that is zero except for the bucket-0 existence score of group 0. -/
def leadFirstScore : Nat → ℚ := fun k => if k = 8 then 1 else 0

/-- A plan segment whose first float (the first position sample of group 0) is 2, in
which groups 1 and 2 share the terminal confidence 1 and every other float is zero. -/
def planTie : Nat → ℚ :=
  fun k => if k = 0 then 2 else if k = 1 * 1981 + 1980 ∨ k = 2 * 1981 + 1980 then 1 else 0

/-- A lead segment whose first float (the distance of group 0) is 50, in which groups 1
and 2 share the bucket-1 existence score 1 and every other float is zero. -/
def leadTie : Nat → ℚ :=
  fun k => if k = 0 then 50 else if k = 1 * 11 + 9 ∨ k = 2 * 11 + 9 then 1 else 0

/-- A command vector whose channel 0 is 1 and whose other channels are 0. -/
def desireChannel0 : Nat → ℚ := fun i => if i = 0 then 1 else 0

/-- A command vector with every channel at 1/2. -/
def desireHalf : Nat → ℚ := fun _ => 1 / 2

/-- A command vector whose channel 1 is 1 and whose other channels are 0. -/
def desireChannel1 : Nat → ℚ := fun i => if i = 1 then 1 else 0

/-- A plan segment whose float at offset `k` is `k`: every forward-distance profile read
from it is increasing. -/
def planRamp : Nat → ℚ := fun k => (k : ℚ)

/-- The sample points `5, 6, 7, ...`. -/
def samplePoints : Nat → ℚ := fun i => 5 + (i : ℚ)

/-- A uniform standard deviation of 1. -/
def unitStds : Nat → ℚ := fun _ => 1

/-- A stand-in for the solve that returns 7 in every coefficient, whatever the system. -/
def constantSolve : (n : Nat) → Matrix (Fin n) (Fin (POLYFIT_DEGREE - 1)) ℚ → (Fin n → ℚ) →
    Fin (POLYFIT_DEGREE - 1) → ℚ :=
  fun _ _ _ _ => 7

/-- A solve that returns the exact solution of the four-row system of a line of slope 2
under unit standard deviations. -/
def slopeTwoSolve : (n : Nat) → Matrix (Fin n) (Fin (POLYFIT_DEGREE - 1)) ℚ → (Fin n → ℚ) →
    Fin (POLYFIT_DEGREE - 1) → ℚ :=
  fun _ _ _ => linear_fit_solution 2 (model_init_globals : Globals ℚ).vander (fun _ => 1) 4

/-- The values of the header constants used in the concrete inputs: five plan groups of
`2*30*33 + 1` floats in 30 columns, five lead groups of `2*4 + 3` floats with three
buckets and four components, and 192 rows. -/
def headerValues : Header :=
  { PLAN_MHP_N := 5, PLAN_MHP_GROUP_SIZE := 1981, PLAN_MHP_COLUMNS := 30,
    LEAD_MHP_N := 5, LEAD_MHP_GROUP_SIZE := 11, LEAD_MHP_SELECTION := 3, LEAD_MHP_VALS := 4,
    MODEL_PATH_DISTANCE := 192 }

/-- A lead segment in which group 2 holds the state vector `(7, 8, 9, 10)` and the only
non-zero bucket-1 existence score, 1; every other float is zero. -/
def leadGroupTwo : Nat → ℚ :=
  fun k => if k = 22 then 7 else if k = 23 then 8 else if k = 24 then 9 else if k = 25 then 10
    else if k = 2 * 11 + 9 then 1 else 0

/-- Network outputs that are zero outside the lead segment `leadGroupTwo`. -/
def rawLeadGroupTwo : ModelDataRaw ℚ :=
  { plan := fun _ => 0, lane_lines := fun _ => 0, lane_lines_prob := fun _ => 0,
    road_edges := fun _ => 0, lead := leadGroupTwo, lead_prob := fun _ => 0, pose := fun _ => 0 }

/-- Network outputs that are zero except for the lane-line existence logits 5 (left) and
-3 (right). -/
def rawLaneLogits : ModelDataRaw ℚ :=
  { plan := fun _ => 0, lane_lines := fun _ => 0,
    lane_lines_prob := fun k => if k = 1 then 5 else if k = 2 then -3 else 0,
    road_edges := fun _ => 0, lead := fun _ => 0, lead_prob := fun _ => 0, pose := fun _ => 0 }

/-- A lead segment whose first float (the distance of group 0) is 1, all else zero. -/
def leadFirstFloat : Nat → ℚ := fun k => if k = 0 then 1 else 0

/-- An ego path whose forward distance is 5 at sample 0 and -1 at every other offset. -/
def planBackward : Nat → ℚ := fun k => if k = 0 then 5 else -1

end Inputs

/-! ## Theorems -/

section LoopLemmas

/-- Invariant rule for `forLoop`: a property that holds at the start and is carried by
every iteration holds at the end. -/
theorem forLoop_induction {σ : Type} (body : Nat → σ → σ) (P : Nat → σ → Prop) :
    ∀ (n lo : Nat) (s : σ), P lo s →
      (∀ i t, lo ≤ i → i < lo + n → P i t → P (i + 1) (body i t)) →
      P (lo + n) (forLoop body lo n s) := by
  intro n
  induction n with
  | zero => intro lo s h0 _; simpa [forLoop] using h0
  | succ n ih =>
    intro lo s h0 hstep
    have h1 : P (lo + 1) (body lo s) := hstep lo s (Nat.le_refl _) (by omega) h0
    have := ih (lo + 1) (body lo s) h1 (fun i t hi hlt => hstep i t (by omega) (by omega))
    simpa [forLoop, Nat.add_assoc, Nat.add_comm 1 n] using this

/-- Two runs of `forLoop` whose bodies preserve a relation end in related states. -/
theorem forLoop_rel {σ τ : Type} (body : Nat → σ → σ) (body2 : Nat → τ → τ)
    (R : Nat → σ → τ → Prop) :
    ∀ (n lo : Nat) (s : σ) (t : τ), R lo s t →
      (∀ i s t, lo ≤ i → i < lo + n → R i s t → R (i + 1) (body i s) (body2 i t)) →
      R (lo + n) (forLoop body lo n s) (forLoop body2 lo n t) := by
  intro n
  induction n with
  | zero => intro lo s t h0 _; simpa [forLoop] using h0
  | succ n ih =>
    intro lo s t h0 hstep
    have h1 := hstep lo s t (Nat.le_refl _) (by omega) h0
    have := ih (lo + 1) (body lo s) (body2 lo t) h1
      (fun i s t hi hlt => hstep i s t (by omega) (by omega))
    simpa [forLoop, Nat.add_assoc, Nat.add_comm 1 n] using this

end LoopLemmas

section SelectorLemmas

variable {K : Type} [LinearOrderedField K]

/-- What `get_plan_data` returns: the pointer is `plan` itself or the address
`&plan[i * PLAN_MHP_GROUP_SIZE - 1]` of one of the floats the loop compared, and the
float it points at is at least `plan[0]` and at least each compared float. -/
theorem get_plan_data_spec (N G : Nat) (plan : Nat → K) :
    (get_plan_data N G plan = 0 ∨
      ∃ i, 1 ≤ i ∧ i < N ∧ get_plan_data N G plan = i * G - 1) ∧
    plan 0 ≤ plan (get_plan_data N G plan) ∧
    ∀ i, 1 ≤ i → i < N → plan (i * G - 1) ≤ plan (get_plan_data N G plan) := by
  have key := forLoop_induction (get_plan_data_step G plan)
    (fun k d => (d = 0 ∨ ∃ i, 1 ≤ i ∧ i < k ∧ d = i * G - 1) ∧ plan 0 ≤ plan d ∧
      ∀ i, 1 ≤ i → i < k → plan (i * G - 1) ≤ plan d)
    (N - 1) 1 0 ⟨Or.inl rfl, le_refl _, fun i h1 h2 => by omega⟩
    (by
      intro i d h1 _ ⟨hd, h0, hall⟩
      unfold get_plan_data_step
      by_cases hc : plan (i * G - 1) > plan d
      · simp only [hc, if_true]
        refine ⟨Or.inr ⟨i, h1, by omega, rfl⟩, le_trans h0 (le_of_lt hc), ?_⟩
        intro j hj1 hj2
        rcases Nat.lt_succ_iff_lt_or_eq.mp hj2 with hlt | heq
        · exact le_trans (hall j hj1 hlt) (le_of_lt hc)
        · subst heq; exact le_refl _
      · simp only [hc, if_false]
        refine ⟨?_, h0, ?_⟩
        · rcases hd with hd | ⟨j, hj1, hj2, hj3⟩
          · exact Or.inl hd
          · exact Or.inr ⟨j, hj1, by omega, hj3⟩
        · intro j hj1 hj2
          rcases Nat.lt_succ_iff_lt_or_eq.mp hj2 with hlt | heq
          · exact hall j hj1 hlt
          · subst heq; exact not_lt.mp hc)
  unfold get_plan_data
  rcases Nat.lt_or_ge N 1 with hN | hN
  · have hN0 : N = 0 := by omega
    subst hN0
    simp [forLoop]
  · have e : 1 + (N - 1) = N := by omega
    rw [e] at key
    exact key

/-- What `get_lead_data` returns for bucket `t`: the pointer is `lead` itself or the
address `&lead[i * LEAD_MHP_GROUP_SIZE + t - LEAD_MHP_SELECTION]` of one of the floats
the loop compared, and the float it points at is at least `lead[0]` and at least each
compared float. -/
theorem get_lead_data_spec (N G S : Nat) (lead : Nat → K) (t : Nat) :
    (get_lead_data N G S lead t = 0 ∨
      ∃ i, 1 ≤ i ∧ i < N ∧ get_lead_data N G S lead t = i * G + t - S) ∧
    lead 0 ≤ lead (get_lead_data N G S lead t) ∧
    ∀ i, 1 ≤ i → i < N → lead (i * G + t - S) ≤ lead (get_lead_data N G S lead t) := by
  have key := forLoop_induction (get_lead_data_step G S lead t)
    (fun k d => (d = 0 ∨ ∃ i, 1 ≤ i ∧ i < k ∧ d = i * G + t - S) ∧ lead 0 ≤ lead d ∧
      ∀ i, 1 ≤ i → i < k → lead (i * G + t - S) ≤ lead d)
    (N - 1) 1 0 ⟨Or.inl rfl, le_refl _, fun i h1 h2 => by omega⟩
    (by
      intro i d h1 _ ⟨hd, h0, hall⟩
      unfold get_lead_data_step
      by_cases hc : lead (i * G + t - S) > lead d
      · simp only [hc, if_true]
        refine ⟨Or.inr ⟨i, h1, by omega, rfl⟩, le_trans h0 (le_of_lt hc), ?_⟩
        intro j hj1 hj2
        rcases Nat.lt_succ_iff_lt_or_eq.mp hj2 with hlt | heq
        · exact le_trans (hall j hj1 hlt) (le_of_lt hc)
        · subst heq; exact le_refl _
      · simp only [hc, if_false]
        refine ⟨?_, h0, ?_⟩
        · rcases hd with hd | ⟨j, hj1, hj2, hj3⟩
          · exact Or.inl hd
          · exact Or.inr ⟨j, hj1, by omega, hj3⟩
        · intro j hj1 hj2
          rcases Nat.lt_succ_iff_lt_or_eq.mp hj2 with hlt | heq
          · exact hall j hj1 hlt
          · subst heq; exact not_lt.mp hc)
  unfold get_lead_data
  rcases Nat.lt_or_ge N 1 with hN | hN
  · have hN0 : N = 0 := by omega
    subst hN0
    simp [forLoop]
  · have e : 1 + (N - 1) = N := by omega
    rw [e] at key
    exact key

/-- The terminal confidence of the last group is never read: with at least two groups
of at least one float, two plan segments that differ only in the last float of the last
group get the same result from `get_plan_data`. -/
theorem get_plan_data_ignores_last_score (N G : Nat) (hN : 2 ≤ N) (hG : 1 ≤ G)
    (plan plan2 : Nat → K) (h : ∀ k, k ≠ (N - 1) * G + (G - 1) → plan k = plan2 k) :
    get_plan_data N G plan = get_plan_data N G plan2 := by
  have hpos : 0 < (N - 1) * G := Nat.mul_pos (by omega) (by omega)
  have key := forLoop_rel (get_plan_data_step G plan) (get_plan_data_step G plan2)
    (fun _ d d2 => d = d2 ∧ d < (N - 1) * G) (N - 1) 1 0 0 ⟨rfl, hpos⟩
    (by
      intro i d d2 h1 h2 ⟨hd, hlt⟩
      subst hd
      have hi : i * G ≤ (N - 1) * G := Nat.mul_le_mul_right G (by omega)
      have hcur : i * G - 1 < (N - 1) * G := by omega
      have e1 : plan (i * G - 1) = plan2 (i * G - 1) := h _ (by omega)
      have e2 : plan d = plan2 d := h _ (by omega)
      unfold get_plan_data_step
      simp only [e1, e2]
      by_cases hc : plan2 (i * G - 1) > plan2 d
      · rw [if_pos hc]; exact ⟨trivial, hcur⟩
      · rw [if_neg hc]; exact ⟨trivial, hlt⟩)
  exact key.1

end SelectorLemmas

section SelectorClaims

/-- C1 (failing input): on the plan segment `planLastBest`, of five groups of 1981
floats, `get_plan_data` returns the pointer `plan + 0`, inside group 0, whose terminal
confidence 0 is strictly below the terminal confidence 1 of group 4: the chosen
hypothesis does not have the greatest terminal confidence. -/
theorem get_plan_data_misses_last_group :
    get_plan_data 5 1981 planLastBest = 0 ∧
    group_of 1981 (get_plan_data 5 1981 planLastBest) = 0 ∧
    plan_score 1981 planLastBest (group_of 1981 (get_plan_data 5 1981 planLastBest)) <
      plan_score 1981 planLastBest 4 := by
  decide

/-- C2 (failing input): on the lead segment `leadLastBest`, of five groups of 11 floats
with three buckets, `get_lead_data` for bucket 1 returns the pointer `lead + 0`, inside
group 0, whose bucket-1 existence score 0 is strictly below the bucket-1 score 1 of
group 4. -/
theorem get_lead_data_misses_last_group :
    get_lead_data 5 11 3 leadLastBest 1 = 0 ∧
    group_of 11 (get_lead_data 5 11 3 leadLastBest 1) = 0 ∧
    lead_score 11 3 leadLastBest 1 (group_of 11 (get_lead_data 5 11 3 leadLastBest 1)) <
      lead_score 11 3 leadLastBest 1 4 := by
  decide

/-- C3 (failing input): on `planFirstScore` the pointer returned by `get_plan_data` is
`plan + 1980`, and on `leadFirstScore` the pointer returned by `get_lead_data` for bucket
0 is `lead + 8`: each is the address of a score field, and neither is the first float
`k * GROUP_SIZE` of any candidate group. -/
theorem selectors_return_score_address :
    get_plan_data 5 1981 planFirstScore = 1980 ∧
    (¬ ∃ k, k < 5 ∧ get_plan_data 5 1981 planFirstScore = k * 1981) ∧
    get_lead_data 5 11 3 leadFirstScore 0 = 8 ∧
    (¬ ∃ k, k < 5 ∧ get_lead_data 5 11 3 leadFirstScore 0 = k * 11) := by
  decide

/-- C4 (failing input): on `planTie` groups 1 and 2 share the maximal terminal
confidence, and `get_plan_data` returns `plan + 0`, candidate 0, whose confidence is
smaller; on `leadTie` groups 1 and 2 share the maximal bucket-1 score, and
`get_lead_data` returns `lead + 0`, candidate 0, whose score is smaller.  The lowest
index among the maximal candidates is 1 in both. -/
theorem selectors_tie_not_lowest_maximal :
    (∀ k, k < 5 → plan_score 1981 planTie k ≤ plan_score 1981 planTie 1) ∧
    plan_score 1981 planTie 1 = plan_score 1981 planTie 2 ∧
    plan_score 1981 planTie 0 < plan_score 1981 planTie 1 ∧
    get_plan_data 5 1981 planTie = 0 ∧
    (∀ k, k < 5 → lead_score 11 3 leadTie 1 k ≤ lead_score 11 3 leadTie 1 1) ∧
    lead_score 11 3 leadTie 1 1 = lead_score 11 3 leadTie 1 2 ∧
    lead_score 11 3 leadTie 1 0 < lead_score 11 3 leadTie 1 1 ∧
    get_lead_data 5 11 3 leadTie 1 = 0 := by
  decide

end SelectorClaims

section DesireLemmas

variable {K : Type} [LinearOrderedField K]

/-- The effect of one iteration of the pulse loop on every channel. -/
theorem desire_step_apply (d : Nat → K) (i : Nat) (s : ModelState K) (c : Nat) :
    (desire_step d i s).pulse_desire c =
      (if c = i then (if d i - s.prev_desire i > 99 / 100 then d i else 0)
       else s.pulse_desire c) ∧
    (desire_step d i s).prev_desire c = (if c = i then d i else s.prev_desire c) := by
  unfold desire_step
  by_cases hc : c = i
  · subst hc
    by_cases hp : d c - s.prev_desire c > 99 / 100 <;> simp [hp]
  · by_cases hp : d i - s.prev_desire i > 99 / 100 <;> simp [hp, hc]

/-- The effect of `model_eval_frame` with a command vector, channel by channel: the
channels `1 ≤ i < DESIRE_LEN` get the pulse rule and the new previous value, every other
index keeps both values. -/
theorem model_eval_frame_channels (DESIRE_LEN : Nat) (s : ModelState K) (d : Nat → K) :
    (∀ i, 1 ≤ i → i < DESIRE_LEN →
      (model_eval_frame DESIRE_LEN s (some d)).pulse_desire i =
        (if d i - s.prev_desire i > 99 / 100 then d i else 0) ∧
      (model_eval_frame DESIRE_LEN s (some d)).prev_desire i = d i) ∧
    (∀ i, i = 0 ∨ DESIRE_LEN ≤ i →
      (model_eval_frame DESIRE_LEN s (some d)).pulse_desire i = s.pulse_desire i ∧
      (model_eval_frame DESIRE_LEN s (some d)).prev_desire i = s.prev_desire i) := by
  have key := forLoop_induction (desire_step d)
    (fun k t =>
      (∀ i, 1 ≤ i → i < k →
        t.pulse_desire i = (if d i - s.prev_desire i > 99 / 100 then d i else 0) ∧
        t.prev_desire i = d i) ∧
      (∀ i, i = 0 ∨ k ≤ i →
        t.pulse_desire i = s.pulse_desire i ∧ t.prev_desire i = s.prev_desire i))
    (DESIRE_LEN - 1) 1 s
    ⟨fun i h1 h2 => by omega, fun i _ => ⟨rfl, rfl⟩⟩
    (by
      intro k t hk _ ⟨hdone, hrest⟩
      refine ⟨?_, ?_⟩
      · intro i h1 h2
        obtain ⟨e1, e2⟩ := desire_step_apply d k t i
        rw [e1, e2]
        by_cases hik : i = k
        · subst hik
          simp [(hrest i (Or.inr (Nat.le_refl _))).2]
        · simp only [hik, if_false]
          exact hdone i h1 (by omega)
      · intro i hi
        obtain ⟨e1, e2⟩ := desire_step_apply d k t i
        rw [e1, e2]
        have hik : i ≠ k := by omega
        simp only [hik, if_false]
        exact hrest i (by omega))
  unfold model_eval_frame
  simp only
  rcases Nat.lt_or_ge DESIRE_LEN 1 with h0 | h0
  · have : DESIRE_LEN = 0 := by omega
    subst this
    refine ⟨fun i h1 h2 => by omega, fun i _ => ?_⟩
    simp [forLoop]
  · have e : 1 + (DESIRE_LEN - 1) = DESIRE_LEN := by omega
    rw [e] at key
    exact key

/-- One call appended to a frame sequence is one more `model_eval_frame` step. -/
theorem run_frames_snoc (DESIRE_LEN : Nat) (frames : List (Nat → K)) (d : Nat → K) :
    run_frames DESIRE_LEN (frames ++ [d]) =
      model_eval_frame DESIRE_LEN (run_frames DESIRE_LEN frames) (some d) := by
  simp [run_frames, List.foldl_append]

/-- Every state reached from `model_init` through command vectors with non-negative
values stores non-negative previous values, and a zero pulse outside the channels
`1 ≤ i < DESIRE_LEN`. -/
theorem run_frames_invariant (DESIRE_LEN : Nat) (frames : List (Nat → K))
    (hframes : ∀ d ∈ frames, ∀ i, i < DESIRE_LEN → 0 ≤ d i ∧ d i ≤ 1) :
    (∀ i, 0 ≤ (run_frames DESIRE_LEN frames).prev_desire i) ∧
    (∀ i, i = 0 ∨ DESIRE_LEN ≤ i → (run_frames DESIRE_LEN frames).pulse_desire i = 0) := by
  induction frames using List.reverseRecOn with
  | nil => simp [run_frames, model_init_state]
  | append_singleton fs d ih =>
    have ih2 := ih (fun e he i hi => hframes e (by simp [he]) i hi)
    have hd := hframes d (by simp)
    rw [run_frames_snoc]
    obtain ⟨hin, hout⟩ := model_eval_frame_channels DESIRE_LEN (run_frames DESIRE_LEN fs) d
    refine ⟨?_, ?_⟩
    · intro i
      by_cases hi : 1 ≤ i ∧ i < DESIRE_LEN
      · rw [(hin i hi.1 hi.2).2]; exact (hd i hi.2).1
      · rw [(hout i (by omega)).2]; exact ih2.1 i
    · intro i hi
      rw [(hout i hi).1]; exact ih2.2 i hi

end DesireLemmas

section DesireClaims

variable {K : Type} [LinearOrderedField K]

/-- C5 (counterexample): from the state of `model_init`, a call with the command vector
`desireChannel0` and `DESIRE_LEN = 8` leaves `pulse_desire[0]` at 0, although
`desire_in[0] - prev_desire[0] = 1 > 0.99`: the pulse rule does not hold for every
channel `0 ≤ i < DESIRE_LEN`. -/
theorem pulse_rule_fails_on_channel_zero :
    ¬ (∀ i, i < 8 →
        (model_eval_frame 8 (model_init_state : ModelState ℚ) (some desireChannel0)).pulse_desire i =
          (if desireChannel0 i - (model_init_state : ModelState ℚ).prev_desire i > 99 / 100
            then desireChannel0 i else 0)) := by
  intro h
  have h0 := h 0 (by decide)
  rw [((model_eval_frame_channels 8 (model_init_state : ModelState ℚ) desireChannel0).2 0
    (Or.inl rfl)).1] at h0
  norm_num [model_init_state, desireChannel0] at h0

/-- C5 (amended): after `model_eval_frame` with a command vector, for every channel `i`
with `1 ≤ i < DESIRE_LEN`, `pulse_desire[i]` is `desire_in[i]` when
`desire_in[i] - prev_desire[i] > 0.99` and zero otherwise; `pulse_desire[0]` is left as
it was. -/
theorem pulse_rule_channels_from_one (DESIRE_LEN : Nat) (s : ModelState K) (d : Nat → K) :
    (∀ i, 1 ≤ i → i < DESIRE_LEN →
      (model_eval_frame DESIRE_LEN s (some d)).pulse_desire i =
        (if d i - s.prev_desire i > 99 / 100 then d i else 0)) ∧
    (model_eval_frame DESIRE_LEN s (some d)).pulse_desire 0 = s.pulse_desire 0 :=
  ⟨fun i h1 h2 => ((model_eval_frame_channels DESIRE_LEN s d).1 i h1 h2).1,
   ((model_eval_frame_channels DESIRE_LEN s d).2 0 (Or.inl rfl)).1⟩

/-- C6 (counterexample): from the state of `model_init`, a call with the command vector
`desireHalf` and `DESIRE_LEN = 8` leaves `prev_desire[0]` at 0, not at
`desire_in[0] = 1/2`. -/
theorem prev_desire_not_updated_on_channel_zero :
    ¬ (∀ i, i < 8 →
        (model_eval_frame 8 (model_init_state : ModelState ℚ) (some desireHalf)).prev_desire i =
          desireHalf i) := by
  intro h
  have h0 := h 0 (by decide)
  rw [((model_eval_frame_channels 8 (model_init_state : ModelState ℚ) desireHalf).2 0
    (Or.inl rfl)).2] at h0
  norm_num [model_init_state, desireHalf] at h0

/-- C6 (amended): after `model_eval_frame` with a command vector, for every channel `i`
with `1 ≤ i < DESIRE_LEN`, `prev_desire[i]` equals `desire_in[i]`, whether or not a pulse
fired; `prev_desire[0]` is left as it was. -/
theorem prev_desire_channels_from_one (DESIRE_LEN : Nat) (s : ModelState K) (d : Nat → K) :
    (∀ i, 1 ≤ i → i < DESIRE_LEN →
      (model_eval_frame DESIRE_LEN s (some d)).prev_desire i = d i) ∧
    (model_eval_frame DESIRE_LEN s (some d)).prev_desire 0 = s.prev_desire 0 :=
  ⟨fun i h1 h2 => ((model_eval_frame_channels DESIRE_LEN s d).1 i h1 h2).2,
   ((model_eval_frame_channels DESIRE_LEN s d).2 0 (Or.inl rfl)).2⟩

/-- C7: starting from the state of `model_init`, along any sequence of command vectors
with values in [0,1], for two consecutive frames `d1`, `d2` and every channel `i`, the
pulse after `d1` or the pulse after `d2` is zero; and when `d1 i = d2 i` the pulse after
`d2` is zero. -/
theorem pulse_one_shot (DESIRE_LEN : Nat) (frames : List (Nat → K)) (d1 d2 : Nat → K)
    (hframes : ∀ d ∈ frames, ∀ i, i < DESIRE_LEN → 0 ≤ d i ∧ d i ≤ 1)
    (h1 : ∀ i, i < DESIRE_LEN → 0 ≤ d1 i ∧ d1 i ≤ 1)
    (h2 : ∀ i, i < DESIRE_LEN → 0 ≤ d2 i ∧ d2 i ≤ 1) (i : Nat) :
    ((run_frames DESIRE_LEN (frames ++ [d1])).pulse_desire i = 0 ∨
      (run_frames DESIRE_LEN (frames ++ [d1, d2])).pulse_desire i = 0) ∧
    (d1 i = d2 i → (run_frames DESIRE_LEN (frames ++ [d1, d2])).pulse_desire i = 0) := by
  have e2 : frames ++ [d1, d2] = (frames ++ [d1]) ++ [d2] := by simp
  rw [e2, run_frames_snoc DESIRE_LEN (frames ++ [d1]) d2, run_frames_snoc DESIRE_LEN frames d1]
  obtain ⟨hprev, hzero⟩ := run_frames_invariant DESIRE_LEN frames hframes
  obtain ⟨hin1, hout1⟩ := model_eval_frame_channels DESIRE_LEN (run_frames DESIRE_LEN frames) d1
  obtain ⟨hin2, hout2⟩ := model_eval_frame_channels DESIRE_LEN
    (model_eval_frame DESIRE_LEN (run_frames DESIRE_LEN frames) (some d1)) d2
  by_cases hi : 1 ≤ i ∧ i < DESIRE_LEN
  · obtain ⟨hi1, hi2⟩ := hi
    rw [(hin2 i hi1 hi2).1, (hin1 i hi1 hi2).1, (hin1 i hi1 hi2).2]
    have hp := hprev i
    have b1 := h1 i hi2
    have b2 := h2 i hi2
    refine ⟨?_, ?_⟩
    · by_cases hc : d2 i - d1 i > 99 / 100
      · left
        have hc1 : ¬ (d1 i - (run_frames DESIRE_LEN frames).prev_desire i > 99 / 100) := by
          intro hgt; linarith [b2.2]
        simp [hc1]
      · right; simp [hc]
    · intro heq
      have hc : ¬ (d2 i - d1 i > 99 / 100) := by
        rw [heq, sub_self]; norm_num
      simp [hc]
  · have ho : i = 0 ∨ DESIRE_LEN ≤ i := by omega
    have z : (model_eval_frame DESIRE_LEN (run_frames DESIRE_LEN frames) (some d1)).pulse_desire i
        = 0 := by rw [(hout1 i ho).1]; exact hzero i ho
    exact ⟨Or.inl z, fun _ => by rw [(hout2 i ho).1]; exact z⟩

/-- C5 (witness): with `DESIRE_LEN = 8`, from the state of `model_init`, the command
vector `desireChannel1` fires the pulse 1 on channel 1. -/
theorem pulse_rule_channels_from_one_witness :
    (model_eval_frame 8 (model_init_state : ModelState ℚ) (some desireChannel1)).pulse_desire 1
      = 1 := by
  have h := (pulse_rule_channels_from_one 8 (model_init_state : ModelState ℚ)
    desireChannel1).1 1 (by decide) (by decide)
  rw [h]
  norm_num [model_init_state, desireChannel1]

/-- C6 (witness): with `DESIRE_LEN = 8`, from the state of `model_init`, the command
vector `desireHalf` fires no pulse on channel 3 and is stored there as previous value. -/
theorem prev_desire_channels_from_one_witness :
    (model_eval_frame 8 (model_init_state : ModelState ℚ) (some desireHalf)).prev_desire 3
      = 1 / 2 := by
  have h := (prev_desire_channels_from_one 8 (model_init_state : ModelState ℚ)
    desireHalf).1 3 (by decide) (by decide)
  rw [h]
  rfl

/-- C7 (witness): with `DESIRE_LEN = 8`, the command `desireChannel1` held for three
frames: on channel 1 the pulse after the second or after the third frame is zero, and
the pulse after the third frame is zero. -/
theorem pulse_one_shot_witness :
    ((run_frames 8 ([desireChannel1] ++ [desireChannel1])).pulse_desire 1 = 0 ∨
      (run_frames 8 ([desireChannel1] ++ [desireChannel1, desireChannel1])).pulse_desire 1 = 0) ∧
    (desireChannel1 1 = desireChannel1 1 →
      (run_frames 8 ([desireChannel1] ++ [desireChannel1, desireChannel1])).pulse_desire 1 = 0) :=
  pulse_one_shot 8 [desireChannel1] desireChannel1 desireChannel1
    (fun d hd i _ => by
      rw [List.mem_singleton.mp hd]; unfold desireChannel1; split <;> norm_num)
    (fun i _ => by unfold desireChannel1; split <;> norm_num)
    (fun i _ => by unfold desireChannel1; split <;> norm_num) 1

end DesireClaims

section ValidLenClaims

variable {K : Type} [LinearOrderedField K]

/-- On a profile that does not decrease from sample 1 on, the scan of the legacy
`fill_model` ends with the last sample, or with 0 when the last sample is negative. -/
theorem valid_len_scan_of_monotone (best_plan : Nat → K)
    (hmono : ∀ i j, i ≤ j → j < TRAJECTORY_SIZE → best_plan (30 * i) ≤ best_plan (30 * j)) :
    valid_len_scan best_plan = max 0 (best_plan (30 * (TRAJECTORY_SIZE - 1))) := by
  have key := forLoop_induction
    (fun i valid_len => if best_plan (30 * i) ≥ valid_len then best_plan (30 * i) else valid_len)
    (fun k v => (k = 1 ∧ v = 0) ∨ (2 ≤ k ∧ v = max 0 (best_plan (30 * (k - 1)))))
    (TRAJECTORY_SIZE - 1) 1 (0 : K) (Or.inl ⟨rfl, rfl⟩)
    (by
      intro i v h1 h2 hP
      right
      refine ⟨by omega, ?_⟩
      have e : i + 1 - 1 = i := by omega
      rw [e]
      rcases hP with ⟨_, hv⟩ | ⟨hk, hv⟩
      · subst hv
        by_cases hc : best_plan (30 * i) ≥ 0
        · simp only [hc, if_true]; exact (max_eq_right hc).symm
        · simp only [hc, if_false]; exact (max_eq_left (le_of_lt (not_le.mp hc))).symm
      · have hm : best_plan (30 * (i - 1)) ≤ best_plan (30 * i) :=
          hmono (i - 1) i (by omega) (by omega)
        by_cases hc : best_plan (30 * i) ≥ v
        · simp only [hc, if_true]
          have h0 : (0 : K) ≤ best_plan (30 * i) := by
            have : (0 : K) ≤ v := by rw [hv]; exact le_max_left _ _
            exact le_trans this hc
          exact (max_eq_right h0).symm
        · simp only [hc, if_false]
          have hlt : best_plan (30 * i) < v := not_le.mp hc
          rw [hv] at hlt ⊢
          rcases le_total (0 : K) (best_plan (30 * (i - 1))) with hp | hn
          · rw [max_eq_right hp] at hlt
            exact absurd hm (not_le.mpr hlt)
          · rw [max_eq_left hn] at hlt ⊢
            exact (max_eq_left (le_of_lt hlt)).symm)
  rcases key with ⟨h, _⟩ | ⟨_, h⟩
  · exact absurd h (by decide)
  · exact h

/-- C8: when the forward-distance samples `best_plan[30*i]`, `0 ≤ i < TRAJECTORY_SIZE`,
of the plan selected by `get_plan_data` do not decrease, the `valid_len` of the legacy
`fill_model` is the final sample clamped to `[MIN_VALID_LEN, MODEL_PATH_DISTANCE]`: the
final sample when it lies in the range, `MIN_VALID_LEN` when it is below the minimum,
`MODEL_PATH_DISTANCE` when it exceeds the maximum. -/
theorem fill_model_valid_len_of_monotone (PLAN_MHP_N PLAN_MHP_GROUP_SIZE MODEL_PATH_DISTANCE : Nat)
    (plan : Nat → K) (hM : MIN_VALID_LEN ≤ MODEL_PATH_DISTANCE)
    (hmono : ∀ i j, i ≤ j → j < TRAJECTORY_SIZE →
      plan (get_plan_data PLAN_MHP_N PLAN_MHP_GROUP_SIZE plan + 30 * i) ≤
        plan (get_plan_data PLAN_MHP_N PLAN_MHP_GROUP_SIZE plan + 30 * j)) :
    fill_model_valid_len PLAN_MHP_N PLAN_MHP_GROUP_SIZE MODEL_PATH_DISTANCE plan =
      min (MODEL_PATH_DISTANCE : K) (max (MIN_VALID_LEN : K)
        (plan (get_plan_data PLAN_MHP_N PLAN_MHP_GROUP_SIZE plan + 30 * (TRAJECTORY_SIZE - 1)))) ∧
    ((MIN_VALID_LEN : K) ≤
        plan (get_plan_data PLAN_MHP_N PLAN_MHP_GROUP_SIZE plan + 30 * (TRAJECTORY_SIZE - 1)) →
      plan (get_plan_data PLAN_MHP_N PLAN_MHP_GROUP_SIZE plan + 30 * (TRAJECTORY_SIZE - 1)) ≤
        (MODEL_PATH_DISTANCE : K) →
      fill_model_valid_len PLAN_MHP_N PLAN_MHP_GROUP_SIZE MODEL_PATH_DISTANCE plan =
        plan (get_plan_data PLAN_MHP_N PLAN_MHP_GROUP_SIZE plan + 30 * (TRAJECTORY_SIZE - 1))) ∧
    (plan (get_plan_data PLAN_MHP_N PLAN_MHP_GROUP_SIZE plan + 30 * (TRAJECTORY_SIZE - 1)) ≤
        (MIN_VALID_LEN : K) →
      fill_model_valid_len PLAN_MHP_N PLAN_MHP_GROUP_SIZE MODEL_PATH_DISTANCE plan =
        (MIN_VALID_LEN : K)) ∧
    ((MODEL_PATH_DISTANCE : K) ≤
        plan (get_plan_data PLAN_MHP_N PLAN_MHP_GROUP_SIZE plan + 30 * (TRAJECTORY_SIZE - 1)) →
      fill_model_valid_len PLAN_MHP_N PLAN_MHP_GROUP_SIZE MODEL_PATH_DISTANCE plan =
        (MODEL_PATH_DISTANCE : K)) := by
  have hscan := valid_len_scan_of_monotone
    (fun k => plan (get_plan_data PLAN_MHP_N PLAN_MHP_GROUP_SIZE plan + k)) hmono
  have hMK : (MIN_VALID_LEN : K) ≤ (MODEL_PATH_DISTANCE : K) := by exact_mod_cast hM
  have h10 : (0 : K) ≤ (MIN_VALID_LEN : K) := by exact_mod_cast Nat.zero_le _
  have main : fill_model_valid_len PLAN_MHP_N PLAN_MHP_GROUP_SIZE MODEL_PATH_DISTANCE plan =
      min (MODEL_PATH_DISTANCE : K) (max (MIN_VALID_LEN : K)
        (plan (get_plan_data PLAN_MHP_N PLAN_MHP_GROUP_SIZE plan + 30 * (TRAJECTORY_SIZE - 1)))) := by
    unfold fill_model_valid_len valid_len_clamp
    simp only [hscan]
    rw [← max_assoc, max_eq_left h10]
  refine ⟨main, ?_, ?_, ?_⟩
  · intro h1 h2
    rw [main, max_eq_right h1, min_eq_right h2]
  · intro h1
    rw [main, max_eq_left h1, min_eq_right hMK]
  · intro h1
    rw [main]
    exact min_eq_left (le_trans h1 (le_max_right _ _))

/-- C8 (witness): on the ramp `planRamp`, with five groups of 1981 floats and
`MODEL_PATH_DISTANCE = 192`, the profile is increasing and the conclusions of C8 hold. -/
theorem fill_model_valid_len_of_monotone_witness :
    MIN_VALID_LEN ≤ 192 ∧
    fill_model_valid_len 5 1981 192 planRamp =
      min ((192 : Nat) : ℚ) (max (MIN_VALID_LEN : ℚ)
        (planRamp (get_plan_data 5 1981 planRamp + 30 * (TRAJECTORY_SIZE - 1)))) :=
  ⟨by decide,
   (fill_model_valid_len_of_monotone 5 1981 192 planRamp (by decide)
    (fun i j hij _ => by
      unfold planRamp
      exact_mod_cast Nat.add_le_add_left (Nat.mul_le_mul_left 30 hij) _)).1⟩

end ValidLenClaims

section GridLemmas

variable {K : Type} [LinearOrderedField K]

/-- The effect of the inner loop of `model_init` for row `i`: the two grid entries of
index `i` are set, and so are the `POLYFIT_DEGREE - 1` entries of row `i` of `vander`. -/
theorem vander_row (i : Nat) (g : Globals K) :
    (forLoop (vander_step i) 0 (POLYFIT_DEGREE - 1) g).X_IDXS =
      Function.update g.X_IDXS i ((192 / 1024) * (i : K) ^ 2) ∧
    (forLoop (vander_step i) 0 (POLYFIT_DEGREE - 1) g).T_IDXS =
      Function.update g.T_IDXS i ((10 / 1024) * (i : K) ^ 2) ∧
    ∀ r c, (forLoop (vander_step i) 0 (POLYFIT_DEGREE - 1) g).vander r c =
      if r = i ∧ c < POLYFIT_DEGREE - 1 then ((192 / 1024) * (i : K) ^ 2) ^ (POLYFIT_DEGREE - c - 1)
      else g.vander r c := by
  refine ⟨?_, ?_, ?_⟩
  · simp [forLoop, vander_step]
  · simp [forLoop, vander_step]
  · intro r c
    simp only [forLoop, vander_step, Function.update_same]
    by_cases hr : r = i
    · subst hr
      rcases Nat.lt_or_ge c 3 with hc | hc
      · interval_cases c <;> simp
      · have h0 : c ≠ 0 := by omega
        have h1 : c ≠ 1 := by omega
        have h2 : c ≠ 2 := by omega
        have h3 : ¬ c < 3 := by omega
        simp [h0, h1, h2, h3]
    · simp [hr]

/-- The grids and the basis matrix after `model_init`: for every sample index
`i < TRAJECTORY_SIZE`, `X_IDXS[i] = 192/1024 * i^2`, `T_IDXS[i] = 10/1024 * i^2`, and
`vander(i, j) = X_IDXS[i]^(POLYFIT_DEGREE - j - 1)` for `j < POLYFIT_DEGREE - 1`. -/
theorem model_init_globals_spec (i : Nat) (hi : i < TRAJECTORY_SIZE) :
    (model_init_globals : Globals K).X_IDXS i = (192 / 1024) * (i : K) ^ 2 ∧
    (model_init_globals : Globals K).T_IDXS i = (10 / 1024) * (i : K) ^ 2 ∧
    ∀ j, j < POLYFIT_DEGREE - 1 →
      (model_init_globals : Globals K).vander i j =
        ((192 / 1024) * (i : K) ^ 2) ^ (POLYFIT_DEGREE - j - 1) := by
  have key := forLoop_induction
    (fun i (g : Globals K) => forLoop (vander_step i) 0 (POLYFIT_DEGREE - 1) g)
    (fun k g => ∀ i, i < k →
      g.X_IDXS i = (192 / 1024) * (i : K) ^ 2 ∧ g.T_IDXS i = (10 / 1024) * (i : K) ^ 2 ∧
      ∀ j, j < POLYFIT_DEGREE - 1 →
        g.vander i j = ((192 / 1024) * (i : K) ^ 2) ^ (POLYFIT_DEGREE - j - 1))
    TRAJECTORY_SIZE 0
    { vander := fun _ _ => 0, X_IDXS := fun _ => 0, T_IDXS := fun _ => 0 }
    (fun i h => by omega)
    (by
      intro k g _ _ hP i hik
      obtain ⟨hx, ht, hv⟩ := vander_row k g
      rw [hx, ht]
      by_cases e : i = k
      · subst e
        refine ⟨by simp, by simp, fun j hj => ?_⟩
        rw [hv, if_pos ⟨rfl, hj⟩]
      · have hlt : i < k := by omega
        obtain ⟨px, pt, pv⟩ := hP i hlt
        refine ⟨by simp [e, px], by simp [e, pt], fun j hj => ?_⟩
        rw [hv, if_neg (fun h => e h.1)]; exact pv j hj)
  have e : 0 + TRAJECTORY_SIZE = TRAJECTORY_SIZE := by omega
  rw [e] at key
  exact key i hi

/-- The first grid point is zero: `X_IDXS[0] = 0`. -/
theorem X_IDXS_zero : (model_init_globals : Globals K).X_IDXS 0 = 0 := by
  rw [(model_init_globals_spec 0 (by decide)).1]; simp

end GridLemmas

section PolyFitLemmas

variable {K : Type} [LinearOrderedField K]

/-- A sum of squared residuals is non-negative. -/
theorem residual_nonneg {n m : Nat} (A : Matrix (Fin n) (Fin m) K) (b : Fin n → K)
    (x : Fin m → K) : 0 ≤ residual A b x :=
  Finset.sum_nonneg (fun _ _ => sq_nonneg _)

/-- The residual vanishes exactly when `x` solves every equation of the system. -/
theorem residual_eq_zero_iff {n m : Nat} (A : Matrix (Fin n) (Fin m) K) (b : Fin n → K)
    (x : Fin m → K) : residual A b x = 0 ↔ ∀ i, A.mulVec x i = b i := by
  unfold residual
  rw [Finset.sum_eq_zero_iff_of_nonneg (fun _ _ => sq_nonneg _)]
  constructor
  · intro h i
    have := h i (Finset.mem_univ i)
    exact sub_eq_zero.mp (pow_eq_zero_iff (two_ne_zero) |>.mp this)
  · intro h i _
    rw [h i, sub_self]; ring

/-- An exact solution is a least-squares solution. -/
theorem isLeastSquares_of_exact {n m : Nat} (A : Matrix (Fin n) (Fin m) K) (b : Fin n → K)
    (x : Fin m → K) (h : ∀ i, A.mulVec x i = b i) : IsLeastSquares A b x := by
  intro y
  rw [(residual_eq_zero_iff A b x).mpr h]
  exact residual_nonneg A b y

/-- When the system has an exact solution, every least-squares solution is exact. -/
theorem exact_of_isLeastSquares {n m : Nat} (A : Matrix (Fin n) (Fin m) K) (b : Fin n → K)
    (x x0 : Fin m → K) (hx : IsLeastSquares A b x) (h0 : ∀ i, A.mulVec x0 i = b i) :
    ∀ i, A.mulVec x i = b i := by
  have hle := hx x0
  rw [(residual_eq_zero_iff A b x0).mpr h0] at hle
  exact (residual_eq_zero_iff A b x).mp (le_antisymm hle (residual_nonneg A b x))

/-- The entries of the weighted basis matrix under a uniform standard deviation. -/
theorem poly_fit_lhs_entry (σ : K) (n : Nat) (hT : n ≤ TRAJECTORY_SIZE) (i : Fin n)
    (j : Fin (POLYFIT_DEGREE - 1)) :
    poly_fit_lhs (model_init_globals : Globals K).vander (fun _ => σ) n i j =
      ((192 / 1024) * ((i.val : Nat) : K) ^ 2) ^ (POLYFIT_DEGREE - j.val - 1) / σ := by
  unfold poly_fit_lhs
  rw [(model_init_globals_spec i.val (lt_of_lt_of_le i.isLt hT)).2.2 j.val j.isLt]

/-- Under a uniform positive standard deviation and at least two rows, every entry of
`scale` is positive. -/
theorem poly_fit_scale_pos (σ : K) (hσ : 0 < σ) (n : Nat) (h2 : 2 ≤ n)
    (hT : n ≤ TRAJECTORY_SIZE) (j : Fin (POLYFIT_DEGREE - 1)) :
    0 < poly_fit_scale (poly_fit_lhs (model_init_globals : Globals K).vander (fun _ => σ) n) j := by
  unfold poly_fit_scale
  apply one_div_pos.mpr
  apply Finset.sum_pos'
  · intro i _; exact abs_nonneg _
  · refine ⟨⟨1, by omega⟩, Finset.mem_univ _, ?_⟩
    unfold sqrt_of_square
    rw [poly_fit_lhs_entry σ n hT]
    apply abs_pos.mpr
    apply ne_of_gt
    apply div_pos _ hσ
    apply pow_pos
    norm_num

/-- A sum over the `POLYFIT_DEGREE - 1` coefficient slots, written out. -/
theorem sum_coefficients (f : Fin (POLYFIT_DEGREE - 1) → K) :
    ∑ j, f j = f ⟨0, by decide⟩ + f ⟨1, by decide⟩ + f ⟨2, by decide⟩ :=
  Fin.sum_univ_three f

/-- One row of the rescaled system applied to a coefficient vector, written out. -/
theorem poly_fit_scaled_mulVec (σ : K) (n : Nat) (hT : n ≤ TRAJECTORY_SIZE) (i : Fin n)
    (x : Fin (POLYFIT_DEGREE - 1) → K) :
    (poly_fit_scaled (poly_fit_lhs (model_init_globals : Globals K).vander (fun _ => σ) n)).mulVec
        x i =
      (((192 / 1024) * ((i.val : Nat) : K) ^ 2) ^ 3 / σ) *
          poly_fit_scale (poly_fit_lhs (model_init_globals : Globals K).vander (fun _ => σ) n)
            ⟨0, by decide⟩ * x ⟨0, by decide⟩ +
      (((192 / 1024) * ((i.val : Nat) : K) ^ 2) ^ 2 / σ) *
          poly_fit_scale (poly_fit_lhs (model_init_globals : Globals K).vander (fun _ => σ) n)
            ⟨1, by decide⟩ * x ⟨1, by decide⟩ +
      (((192 / 1024) * ((i.val : Nat) : K) ^ 2) ^ 1 / σ) *
          poly_fit_scale (poly_fit_lhs (model_init_globals : Globals K).vander (fun _ => σ) n)
            ⟨2, by decide⟩ * x ⟨2, by decide⟩ := by
  have e : ∀ j : Fin (POLYFIT_DEGREE - 1),
      poly_fit_scaled (poly_fit_lhs (model_init_globals : Globals K).vander (fun _ => σ) n) i j =
        (((192 / 1024) * ((i.val : Nat) : K) ^ 2) ^ (POLYFIT_DEGREE - j.val - 1) / σ) *
          poly_fit_scale (poly_fit_lhs (model_init_globals : Globals K).vander (fun _ => σ) n) j := by
    intro j
    unfold poly_fit_scaled
    rw [poly_fit_lhs_entry σ n hT]
  unfold Matrix.mulVec Matrix.dotProduct
  rw [sum_coefficients]
  simp only [e]
  rfl

/-- The right-hand side built from points on the line `a * X_IDXS[i] + b`. -/
theorem poly_fit_rhs_linear (a b σ : K) (n : Nat) (hT : n ≤ TRAJECTORY_SIZE) (i : Fin n) :
    poly_fit_rhs (fun k => a * (model_init_globals : Globals K).X_IDXS k + b) (fun _ => σ) n i =
      a * ((192 / 1024) * ((i.val : Nat) : K) ^ 2) / σ := by
  show (a * (model_init_globals : Globals K).X_IDXS i.val + b -
    (a * (model_init_globals : Globals K).X_IDXS 0 + b)) / σ = _
  rw [X_IDXS_zero, (model_init_globals_spec i.val (lt_of_lt_of_le i.isLt hT)).1]
  congr 1
  ring

/-- The vector `linear_fit_solution` solves the rescaled system of a linear path
exactly. -/
theorem linear_fit_solution_exact (a b σ : K) (hσ : 0 < σ) (n : Nat) (h2 : 2 ≤ n)
    (hT : n ≤ TRAJECTORY_SIZE) (i : Fin n) :
    (poly_fit_scaled (poly_fit_lhs (model_init_globals : Globals K).vander (fun _ => σ) n)).mulVec
        (linear_fit_solution a (model_init_globals : Globals K).vander (fun _ => σ) n) i =
      poly_fit_rhs (fun k => a * (model_init_globals : Globals K).X_IDXS k + b) (fun _ => σ) n i := by
  rw [poly_fit_scaled_mulVec σ n hT, poly_fit_rhs_linear a b σ n hT]
  have hs := ne_of_gt (poly_fit_scale_pos σ hσ n h2 hT ⟨2, by decide⟩)
  have x0 : linear_fit_solution a (model_init_globals : Globals K).vander (fun _ => σ) n
      ⟨0, by decide⟩ = 0 := by
    simp [linear_fit_solution]
  have x1 : linear_fit_solution a (model_init_globals : Globals K).vander (fun _ => σ) n
      ⟨1, by decide⟩ = 0 := by
    simp [linear_fit_solution]
  have x2 : linear_fit_solution a (model_init_globals : Globals K).vander (fun _ => σ) n
      ⟨2, by decide⟩ =
      a / poly_fit_scale (poly_fit_lhs (model_init_globals : Globals K).vander (fun _ => σ) n)
        ⟨2, by decide⟩ := by
    simp [linear_fit_solution]
  rw [x0, x1, x2]
  field_simp
  ring

/-- One equation of the rescaled system, cleared of the standard deviation. -/
theorem row_equation (σ x s0 p0 s1 p1 s2 p2 a : K) (hσ : σ ≠ 0)
    (h : x ^ 3 / σ * s0 * p0 + x ^ 2 / σ * s1 * p1 + x ^ 1 / σ * s2 * p2 = a * x / σ) :
    x ^ 3 * (p0 * s0) + x ^ 2 * (p1 * s1) + x * (p2 * s2) = a * x := by
  calc x ^ 3 * (p0 * s0) + x ^ 2 * (p1 * s1) + x * (p2 * s2)
      = (x ^ 3 / σ * s0 * p0 + x ^ 2 / σ * s1 * p1 + x ^ 1 / σ * s2 * p2) * σ := by
        field_simp; ring
    _ = a * x / σ * σ := by rw [h]
    _ = a * x := by field_simp

/-- A cubic without constant term that agrees with the line `a * x` at the grid points
of indices 1, 2 and 3 has coefficients `(0, 0, a)`. -/
theorem coefficients_of_three_rows (u0 u1 u2 a : K)
    (e1 : ((192 : K) / 1024 * 1 ^ 2) ^ 3 * u0 + ((192 : K) / 1024 * 1 ^ 2) ^ 2 * u1 +
      ((192 : K) / 1024 * 1 ^ 2) * u2 = a * ((192 : K) / 1024 * 1 ^ 2))
    (e2 : ((192 : K) / 1024 * 2 ^ 2) ^ 3 * u0 + ((192 : K) / 1024 * 2 ^ 2) ^ 2 * u1 +
      ((192 : K) / 1024 * 2 ^ 2) * u2 = a * ((192 : K) / 1024 * 2 ^ 2))
    (e3 : ((192 : K) / 1024 * 3 ^ 2) ^ 3 * u0 + ((192 : K) / 1024 * 3 ^ 2) ^ 2 * u1 +
      ((192 : K) / 1024 * 3 ^ 2) * u2 = a * ((192 : K) / 1024 * 3 ^ 2)) :
    u0 = 0 ∧ u1 = 0 ∧ u2 = a := by
  norm_num at e1 e2 e3
  refine ⟨?_, ?_, ?_⟩ <;> linarith

end PolyFitLemmas

section PolyFitClaims

variable {K : Type} [LinearOrderedField K]

/-- C9: whatever the solve returns, for `valid_len ≥ 1` the last slot
`out[POLYFIT_DEGREE - 1]` written by `poly_fit` is the first sample `in_pts[0]`; the first
grid point `X_IDXS[0]` is 0, and the fitted cubic evaluated there is `in_pts[0]`. -/
theorem poly_fit_first_sample
    (solve : (n : Nat) → Matrix (Fin n) (Fin (POLYFIT_DEGREE - 1)) K → (Fin n → K) →
      Fin (POLYFIT_DEGREE - 1) → K)
    (in_pts in_stds : Nat → K) (valid_len : Nat) (_hv : 1 ≤ valid_len) :
    poly_fit solve (model_init_globals : Globals K).vander in_pts in_stds valid_len
        (POLYFIT_DEGREE - 1) = in_pts 0 ∧
    (model_init_globals : Globals K).X_IDXS 0 = 0 ∧
    poly_eval (poly_fit solve (model_init_globals : Globals K).vander in_pts in_stds valid_len)
        ((model_init_globals : Globals K).X_IDXS 0) = in_pts 0 := by
  have h3 : poly_fit solve (model_init_globals : Globals K).vander in_pts in_stds valid_len 3
      = in_pts 0 := by
    simp [poly_fit]
  refine ⟨h3, X_IDXS_zero, ?_⟩
  rw [X_IDXS_zero]
  simp [poly_eval, h3]

/-- C10: in exact arithmetic, with a uniform positive standard deviation `σ` and
`4 ≤ valid_len ≤ TRAJECTORY_SIZE`, when the solve returns a least-squares solution of the
system `poly_fit` hands it, the points `in_pts[i] = a * X_IDXS[i] + b` are fitted with the
coefficients `(0, 0, a, b)`. -/
theorem poly_fit_linear_path
    (solve : (n : Nat) → Matrix (Fin n) (Fin (POLYFIT_DEGREE - 1)) K → (Fin n → K) →
      Fin (POLYFIT_DEGREE - 1) → K)
    (a b σ : K) (hσ : 0 < σ) (valid_len : Nat) (h4 : 4 ≤ valid_len)
    (hT : valid_len ≤ TRAJECTORY_SIZE)
    (hsolve : IsLeastSquares
      (poly_fit_scaled (poly_fit_lhs (model_init_globals : Globals K).vander (fun _ => σ) valid_len))
      (poly_fit_rhs (fun k => a * (model_init_globals : Globals K).X_IDXS k + b) (fun _ => σ)
        valid_len)
      (solve valid_len
        (poly_fit_scaled (poly_fit_lhs (model_init_globals : Globals K).vander (fun _ => σ)
          valid_len))
        (poly_fit_rhs (fun k => a * (model_init_globals : Globals K).X_IDXS k + b) (fun _ => σ)
          valid_len))) :
    poly_fit solve (model_init_globals : Globals K).vander
        (fun k => a * (model_init_globals : Globals K).X_IDXS k + b) (fun _ => σ) valid_len 0 = 0 ∧
    poly_fit solve (model_init_globals : Globals K).vander
        (fun k => a * (model_init_globals : Globals K).X_IDXS k + b) (fun _ => σ) valid_len 1 = 0 ∧
    poly_fit solve (model_init_globals : Globals K).vander
        (fun k => a * (model_init_globals : Globals K).X_IDXS k + b) (fun _ => σ) valid_len 2 = a ∧
    poly_fit solve (model_init_globals : Globals K).vander
        (fun k => a * (model_init_globals : Globals K).X_IDXS k + b) (fun _ => σ) valid_len 3 = b := by
  have hex := exact_of_isLeastSquares _ _ _
    (linear_fit_solution a (model_init_globals : Globals K).vander (fun _ => σ) valid_len) hsolve
    (linear_fit_solution_exact a b σ hσ valid_len (by omega) hT)
  have r1 := hex ⟨1, by omega⟩
  have r2 := hex ⟨2, by omega⟩
  have r3 := hex ⟨3, by omega⟩
  rw [poly_fit_scaled_mulVec σ valid_len hT, poly_fit_rhs_linear a b σ valid_len hT] at r1 r2 r3
  have hσ0 : σ ≠ 0 := ne_of_gt hσ
  simp only [Nat.cast_one, Nat.cast_ofNat] at r1 r2 r3
  obtain ⟨u0, u1, u2⟩ := coefficients_of_three_rows _ _ _ a
    (row_equation σ _ _ _ _ _ _ _ a hσ0 r1) (row_equation σ _ _ _ _ _ _ _ a hσ0 r2)
    (row_equation σ _ _ _ _ _ _ _ a hσ0 r3)
  refine ⟨?_, ?_, ?_, ?_⟩
  · simpa [poly_fit] using u0
  · simpa [poly_fit] using u1
  · simpa [poly_fit] using u2
  · simp [poly_fit, X_IDXS_zero]

/-- C9 (witness): four samples `5, 6, 7, 8` with unit standard deviations and a solve
that returns 7 everywhere: slot 3 is 5, and the cubic evaluates to 5 at `X_IDXS[0]`. -/
theorem poly_fit_first_sample_witness :
    1 ≤ 4 ∧
    (poly_fit constantSolve (model_init_globals : Globals ℚ).vander samplePoints unitStds 4
        (POLYFIT_DEGREE - 1) = samplePoints 0 ∧
    (model_init_globals : Globals ℚ).X_IDXS 0 = 0 ∧
    poly_eval (poly_fit constantSolve (model_init_globals : Globals ℚ).vander samplePoints unitStds 4)
        ((model_init_globals : Globals ℚ).X_IDXS 0) = samplePoints 0) :=
  ⟨by decide, poly_fit_first_sample constantSolve samplePoints unitStds 4 (by decide)⟩

/-- C10 (witness): the line `2 * X_IDXS[i] + 5` on four samples with standard deviation
1, solved exactly, is fitted with the coefficients `(0, 0, 2, 5)`. -/
theorem poly_fit_linear_path_witness :
    poly_fit slopeTwoSolve (model_init_globals : Globals ℚ).vander
        (fun k => 2 * (model_init_globals : Globals ℚ).X_IDXS k + 5) (fun _ => 1) 4 0 = 0 ∧
    poly_fit slopeTwoSolve (model_init_globals : Globals ℚ).vander
        (fun k => 2 * (model_init_globals : Globals ℚ).X_IDXS k + 5) (fun _ => 1) 4 1 = 0 ∧
    poly_fit slopeTwoSolve (model_init_globals : Globals ℚ).vander
        (fun k => 2 * (model_init_globals : Globals ℚ).X_IDXS k + 5) (fun _ => 1) 4 2 = 2 ∧
    poly_fit slopeTwoSolve (model_init_globals : Globals ℚ).vander
        (fun k => 2 * (model_init_globals : Globals ℚ).X_IDXS k + 5) (fun _ => 1) 4 3 = 5 :=
  poly_fit_linear_path slopeTwoSolve 2 5 1 (by norm_num) 4 (by decide) (by decide)
    (isLeastSquares_of_exact _ _ _
      (linear_fit_solution_exact 2 5 1 (by norm_num) 4 (by decide) (by decide)))

end PolyFitClaims

section DecodeLemmas

variable {K : Type} [LinearOrderedField K]

/-- The arrays filled by the loop of `fill_lead_v2`: for `i < LEAD_MHP_VALS`, both `xyva[i]`
and the argument of `exp` in `xyva_stds[i]` are read at `data[LEAD_MHP_VALS + i]`. -/
theorem fill_lead_v2_loop (e : Extern K) (V : Nat) (data : Nat → K) (i : Nat) (hi : i < V) :
    (forLoop (fill_lead_v2_step e V data) 0 V
        { xyva := fun _ => 0, xyva_stds := fun _ => 0 }).xyva i = data (V + i) ∧
    (forLoop (fill_lead_v2_step e V data) 0 V
        { xyva := fun _ => 0, xyva_stds := fun _ => 0 }).xyva_stds i = e.exp (data (V + i)) := by
  have key := forLoop_induction (fill_lead_v2_step e V data)
    (fun k a => ∀ i, i < k → a.xyva i = data (V + i) ∧ a.xyva_stds i = e.exp (data (V + i)))
    V 0 { xyva := fun _ => 0, xyva_stds := fun _ => 0 } (fun i h => by omega)
    (by
      intro k a _ _ hP i hik
      unfold fill_lead_v2_step
      by_cases hk : i = k
      · subst hk; simp
      · have := hP i (by omega)
        simp [hk, this])
  have e0 : 0 + V = V := by omega
  rw [e0] at key
  exact key i hi

/-- What `fill_lead_v2` emits, relative to the pointer `get_lead_data` returned: `xyva[i]`
is `data[LEAD_MHP_VALS + i]` and `xyvaStd[i]` is `exp(data[LEAD_MHP_VALS + i])`. -/
theorem fill_lead_v2_apply [FloorRing K] (e : Extern K) (h : Header) (lead_data : Nat → K)
    (prob t : K) (i : Nat) (hi : i < h.LEAD_MHP_VALS) :
    (fill_lead_v2 e h lead_data prob t).xyva i =
      lead_data (get_lead_data h.LEAD_MHP_N h.LEAD_MHP_GROUP_SIZE h.LEAD_MHP_SELECTION lead_data
        ⌊t⌋₊ + (h.LEAD_MHP_VALS + i)) ∧
    (fill_lead_v2 e h lead_data prob t).xyvaStd i =
      e.exp (lead_data (get_lead_data h.LEAD_MHP_N h.LEAD_MHP_GROUP_SIZE h.LEAD_MHP_SELECTION
        lead_data ⌊t⌋₊ + (h.LEAD_MHP_VALS + i))) :=
  fill_lead_v2_loop e h.LEAD_MHP_VALS _ i hi

end DecodeLemmas

section LeadClaims

/-- C11 (failing input): on `rawLeadGroupTwo`, where hypothesis 2 has the strictly
highest bucket-1 existence score and the state vector `(7, 8, 9, 10)`, the V2 lead track
`leads[1]` built by `fill_model` has `t = 2` and reports `xyva = (0, 0, 0, 0)`. -/
theorem fill_model_v2_lead_at_two_seconds (e : Extern ℚ) :
    (∀ k, k < 5 → k ≠ 2 → lead_score 11 3 leadGroupTwo 1 k < lead_score 11 3 leadGroupTwo 1 2) ∧
    ∃ l, (fill_model_v2 e headerValues model_init_globals rawLeadGroupTwo).leads[1]? = some l ∧
      l.t = 2 ∧
      (∀ i, i < 4 → l.xyva i = 0) ∧
      (∀ i, i < 4 → leadGroupTwo (2 * 11 + i) ≠ 0) := by
  refine ⟨by decide, fill_lead_v2 e headerValues leadGroupTwo 0 2, ?_, rfl, ?_, by decide⟩
  · simp [fill_model_v2, headerValues, List.range, List.range.loop, t_offsets, rawLeadGroupTwo]
  · intro i hi
    have hsel : get_lead_data 5 11 3 leadGroupTwo 2 = 0 := by decide
    rw [(fill_lead_v2_apply e headerValues leadGroupTwo 0 2 i hi).1]
    simp only [headerValues, Nat.floor_ofNat, hsel]
    interval_cases i <;> decide

/-- C19 (failing input): on `leadFirstFloat`, for bucket 0, `get_lead_data` returns
`lead + 0`, the legacy `fill_lead` emits `dist = data[0] = 1`, and `fill_lead_v2` emits
`xyva[0] = data[LEAD_MHP_VALS + 0] = 0`, the float whose exponential it emits as
`xyvaStd[0]`. -/
theorem fill_lead_v2_reads_std_slot (e : Extern ℚ) :
    get_lead_data 5 11 3 leadFirstFloat 0 = 0 ∧
    (fill_lead e headerValues leadFirstFloat (fun _ => 0) 0).dist = 1 ∧
    (fill_lead_v2 e headerValues leadFirstFloat 0 0).xyva 0 = 0 ∧
    (fill_lead_v2 e headerValues leadFirstFloat 0 0).xyva 0 ≠
      leadFirstFloat (get_lead_data 5 11 3 leadFirstFloat 0 + 0) ∧
    (fill_lead_v2 e headerValues leadFirstFloat 0 0).xyvaStd 0 =
      e.exp (leadFirstFloat (get_lead_data 5 11 3 leadFirstFloat 0 + 4)) := by
  have hsel : get_lead_data 5 11 3 leadFirstFloat 0 = 0 := by decide
  have hx : (fill_lead_v2 e headerValues leadFirstFloat 0 0).xyva 0 = 0 := by
    rw [(fill_lead_v2_apply e headerValues leadFirstFloat 0 0 0 (by decide)).1]
    simp only [headerValues, Nat.floor_zero, hsel]
    decide
  refine ⟨hsel, ?_, hx, ?_, ?_⟩
  · simp only [fill_lead, headerValues, hsel]
    decide
  · rw [hx, hsel]; decide
  · rw [(fill_lead_v2_apply e headerValues leadFirstFloat 0 0 0 (by decide)).2]
    simp only [headerValues, Nat.floor_zero, hsel]

end LeadClaims

section PublishClaims

variable {K : Type} [LinearOrderedField K]

/-- C12: for 32-bit unsigned `frame_id` and `vipc_frame_id`, the `frame_age` of
`model_publish` is `frame_id - vipc_frame_id` when `frame_id > vipc_frame_id` and 0
otherwise: as an integer it is the difference clamped at zero, so the subtraction
modulo `2^32` never wraps. -/
theorem frame_age_never_wraps (vipc_frame_id frame_id : Nat) (frame_drop : K)
    (timestamp_eof : Nat) (model_execution_time : K)
    (hv : vipc_frame_id < 2 ^ 32) (hf : frame_id < 2 ^ 32) :
    (model_publish_meta vipc_frame_id frame_id frame_drop timestamp_eof
        model_execution_time).frameAge =
      (if frame_id > vipc_frame_id then frame_id - vipc_frame_id else 0) ∧
    (((model_publish_meta vipc_frame_id frame_id frame_drop timestamp_eof
        model_execution_time).frameAge : Nat) : Int) =
      max 0 ((frame_id : Int) - (vipc_frame_id : Int)) ∧
    (frame_id ≤ vipc_frame_id →
      (model_publish_meta vipc_frame_id frame_id frame_drop timestamp_eof
        model_execution_time).frameAge = 0) := by
  have h32 : (2 : Nat) ^ 32 = 4294967296 := by norm_num
  rw [h32] at hv hf
  have hage : frame_age vipc_frame_id frame_id =
      (if frame_id > vipc_frame_id then frame_id - vipc_frame_id else 0) := by
    unfold frame_age
    rw [h32]
    by_cases hc : frame_id > vipc_frame_id
    · rw [if_pos hc, if_pos hc]; omega
    · rw [if_neg hc, if_neg hc]
  refine ⟨hage, ?_, ?_⟩
  · show ((frame_age vipc_frame_id frame_id : Nat) : Int) = _
    rw [hage]
    by_cases hc : frame_id > vipc_frame_id
    · rw [if_pos hc]
      have : (0 : Int) ≤ (frame_id : Int) - (vipc_frame_id : Int) := by omega
      rw [max_eq_right this]; omega
    · rw [if_neg hc]
      have : (frame_id : Int) - (vipc_frame_id : Int) ≤ 0 := by omega
      rw [max_eq_left this]; rfl
  · intro hle
    show frame_age vipc_frame_id frame_id = 0
    rw [hage, if_neg (by omega)]

/-- C12 (witness): frame 7 against the reference frame 10 has age 0, not `2^32 - 3`. -/
theorem frame_age_never_wraps_witness :
    (model_publish_meta 10 7 (0 : ℚ) 0 0).frameAge = 0 :=
  (frame_age_never_wraps 10 7 (0 : ℚ) 0 0 (by norm_num) (by norm_num)).2.2 (by decide)

/-- C13: the camera-odometry event of `posenet_publish` is valid exactly when
`vipc_dropped_frames` is 0, and invalid exactly when at least one frame was dropped. -/
theorem posenet_publish_valid_iff (e : Extern K) (vipc_frame_id vipc_dropped_frames : Nat)
    (net_outputs : ModelDataRaw K) (timestamp_eof : Nat) :
    ((posenet_publish e vipc_frame_id vipc_dropped_frames net_outputs timestamp_eof).valid = true ↔
      vipc_dropped_frames = 0) ∧
    ((posenet_publish e vipc_frame_id vipc_dropped_frames net_outputs timestamp_eof).valid = false ↔
      1 ≤ vipc_dropped_frames) := by
  have hv : (posenet_publish e vipc_frame_id vipc_dropped_frames net_outputs timestamp_eof).valid =
      decide (vipc_dropped_frames < 1) := rfl
  rw [hv]
  constructor
  · rw [decide_eq_true_iff]; omega
  · rw [decide_eq_false_iff_not]; omega

end PublishClaims

section LaneProbClaims

variable {K : Type} [LinearOrderedField K]

/-- What the two schemas emit as lane-line probabilities: the legacy record passes the
logits `lane_lines_prob[1]` and `lane_lines_prob[2]` through unchanged, the V2 record
applies `sigmoid` to each of the four logits. -/
theorem lane_line_probs_emitted [FloorRing K] (e : Extern K) (h : Header) (g : Globals K)
    (net_outputs : ModelDataRaw K) :
    (fill_model e h g net_outputs).leftLane.prob = net_outputs.lane_lines_prob 1 ∧
    (fill_model e h g net_outputs).rightLane.prob = net_outputs.lane_lines_prob 2 ∧
    (fill_model_v2 e h g net_outputs).laneLineProbs =
      [e.sigmoid (net_outputs.lane_lines_prob 0), e.sigmoid (net_outputs.lane_lines_prob 1),
       e.sigmoid (net_outputs.lane_lines_prob 2), e.sigmoid (net_outputs.lane_lines_prob 3)] := by
  refine ⟨rfl, rfl, ?_⟩
  simp [fill_model_v2, List.range, List.range.loop]

/-- C14 (failing input): on `rawLaneLogits`, with logits 5 and -3, the legacy record's
left-lane `prob` is 5 and its right-lane `prob` is -3, both outside [0,1], whatever
`sigmoid` is; the V2 record emits `sigmoid 5` and `sigmoid (-3)` for the same lines. -/
theorem legacy_lane_prob_is_raw_logit (e : Extern ℚ) :
    (fill_model e headerValues model_init_globals rawLaneLogits).leftLane.prob = 5 ∧
    ¬ ((fill_model e headerValues model_init_globals rawLaneLogits).leftLane.prob ≤ 1) ∧
    (fill_model e headerValues model_init_globals rawLaneLogits).rightLane.prob = -3 ∧
    ¬ (0 ≤ (fill_model e headerValues model_init_globals rawLaneLogits).rightLane.prob) ∧
    (fill_model_v2 e headerValues model_init_globals rawLaneLogits).laneLineProbs[1]? =
      some (e.sigmoid 5) ∧
    (fill_model_v2 e headerValues model_init_globals rawLaneLogits).laneLineProbs[2]? =
      some (e.sigmoid (-3)) := by
  obtain ⟨hl, hr, hv2⟩ := lane_line_probs_emitted e headerValues model_init_globals rawLaneLogits
  have e1 : rawLaneLogits.lane_lines_prob 1 = 5 := by decide
  have e2 : rawLaneLogits.lane_lines_prob 2 = -3 := by decide
  rw [hl, hr, hv2, e1, e2]
  refine ⟨rfl, by norm_num, rfl, by norm_num, rfl, rfl⟩

end LaneProbClaims

section ValidLenScanClaims

variable {K : Type} [LinearOrderedField K]

/-- What the scan of the legacy `fill_model` ends with: a value that is at least 0 and
at least each sample from 1 on, and that is 0 or one of those samples. -/
theorem valid_len_scan_spec (best_plan : Nat → K) :
    0 ≤ valid_len_scan best_plan ∧
    (∀ i, 1 ≤ i → i < TRAJECTORY_SIZE → best_plan (30 * i) ≤ valid_len_scan best_plan) ∧
    (valid_len_scan best_plan = 0 ∨
      ∃ i, 1 ≤ i ∧ i < TRAJECTORY_SIZE ∧ valid_len_scan best_plan = best_plan (30 * i)) := by
  have key := forLoop_induction
    (fun i valid_len => if best_plan (30 * i) ≥ valid_len then best_plan (30 * i) else valid_len)
    (fun k v => 0 ≤ v ∧ (∀ i, 1 ≤ i → i < k → best_plan (30 * i) ≤ v) ∧
      (v = 0 ∨ ∃ i, 1 ≤ i ∧ i < k ∧ v = best_plan (30 * i)))
    (TRAJECTORY_SIZE - 1) 1 (0 : K) ⟨le_refl _, fun i h1 h2 => by omega, Or.inl rfl⟩
    (by
      intro k v hk _ ⟨h0, hub, hatt⟩
      by_cases hc : best_plan (30 * k) ≥ v
      · simp only [hc, if_true]
        refine ⟨le_trans h0 hc, ?_, Or.inr ⟨k, hk, by omega, rfl⟩⟩
        intro i hi1 hi2
        rcases Nat.lt_succ_iff_lt_or_eq.mp hi2 with hlt | heq
        · exact le_trans (hub i hi1 hlt) hc
        · subst heq; exact le_refl _
      · simp only [hc, if_false]
        refine ⟨h0, ?_, ?_⟩
        · intro i hi1 hi2
          rcases Nat.lt_succ_iff_lt_or_eq.mp hi2 with hlt | heq
          · exact hub i hi1 hlt
          · subst heq; exact le_of_lt (not_le.mp hc)
        · rcases hatt with hz | ⟨j, hj1, hj2, hj3⟩
          · exact Or.inl hz
          · exact Or.inr ⟨j, hj1, by omega, hj3⟩)
  exact key

/-- C15 (counterexample): on `planBackward`, whose forward distance is 5 at sample 0 and
-1 at every later sample, the scan of the legacy `fill_model` ends at 0: below the sample
`best_plan[0] = 5`, and equal to no sample, so it is not the maximum of the samples. -/
theorem valid_len_scan_not_maximum :
    valid_len_scan planBackward = 0 ∧
    valid_len_scan planBackward < planBackward (30 * 0) ∧
    (∀ i, i < TRAJECTORY_SIZE → planBackward (30 * i) ≠ valid_len_scan planBackward) := by
  have h0 : valid_len_scan planBackward = 0 := by
    obtain ⟨hnn, _, hz | ⟨i, hi1, _, hi⟩⟩ := valid_len_scan_spec planBackward
    · exact hz
    · exfalso
      have hne : 30 * i ≠ 0 := by omega
      rw [hi] at hnn
      simp only [planBackward, hne, if_false] at hnn
      norm_num at hnn
  refine ⟨h0, ?_, ?_⟩
  · rw [h0]; decide
  · intro i _
    rw [h0]
    unfold planBackward
    split <;> norm_num

/-- C15 (amended): before clamping, the `valid_len` of the legacy `fill_model` is the
maximum of 0 and the forward distances `best_plan[30*i]` of the samples
`1 ≤ i < TRAJECTORY_SIZE`: it is at least 0 and at least each of those samples, and it is
0 or one of them. -/
theorem valid_len_scan_is_max_from_one (best_plan : Nat → K) :
    0 ≤ valid_len_scan best_plan ∧
    (∀ i, 1 ≤ i → i < TRAJECTORY_SIZE → best_plan (30 * i) ≤ valid_len_scan best_plan) ∧
    (valid_len_scan best_plan = 0 ∨
      ∃ i, 1 ≤ i ∧ i < TRAJECTORY_SIZE ∧ valid_len_scan best_plan = best_plan (30 * i)) :=
  valid_len_scan_spec best_plan

/-- The distance grid does not decrease along the samples. -/
theorem X_IDXS_mono (i j : Nat) (hij : i ≤ j) (hj : j < TRAJECTORY_SIZE) :
    (model_init_globals : Globals K).X_IDXS i ≤ (model_init_globals : Globals K).X_IDXS j := by
  rw [(model_init_globals_spec i (by omega)).1, (model_init_globals_spec j hj).1]
  have hc : ((i : Nat) : K) ≤ ((j : Nat) : K) := by exact_mod_cast hij
  have hi0 : (0 : K) ≤ ((i : Nat) : K) := Nat.cast_nonneg i
  have hsq : ((i : Nat) : K) ^ 2 ≤ ((j : Nat) : K) ^ 2 := pow_le_pow_left₀ hi0 hc 2
  have hpos : (0 : K) ≤ 192 / 1024 := by norm_num
  exact mul_le_mul_of_nonneg_left hsq hpos

/-- What the index loop of the legacy `fill_model` ends with, for a length that is not
below `X_IDXS[0]`. -/
theorem valid_len_idx_scan_spec (X : Nat → K) (v : K) (h0 : X 0 ≤ v) :
    1 ≤ valid_len_idx_scan X v ∧ valid_len_idx_scan X v ≤ TRAJECTORY_SIZE - 1 ∧
    X (valid_len_idx_scan X v - 1) ≤ v ∧
    (v < X (valid_len_idx_scan X v) ∨ valid_len_idx_scan X v = TRAJECTORY_SIZE - 1) := by
  have key := forLoop_induction
    (fun i valid_len_idx => if v ≥ X valid_len_idx then i else valid_len_idx)
    (fun k idx => idx < k ∧ (1 ≤ idx → X (idx - 1) ≤ v) ∧ (idx + 1 < k → v < X idx))
    (TRAJECTORY_SIZE - 1) 1 0 ⟨by omega, fun h => by omega, fun h => by omega⟩
    (by
      intro k idx hk _ ⟨hlt, hprev, hstuck⟩
      by_cases hc : v ≥ X idx
      · simp only [hc, if_true]
        have hidx : idx = k - 1 := by
          by_contra hne
          exact absurd hc (not_le.mpr (hstuck (by omega)))
        refine ⟨by omega, fun _ => ?_, fun h => by omega⟩
        rw [← hidx]; exact hc
      · simp only [hc, if_false]
        exact ⟨by omega, hprev, fun _ => not_le.mp hc⟩)
  obtain ⟨hlt, hprev, hstuck⟩ :
      valid_len_idx_scan X v < 33 ∧
      (1 ≤ valid_len_idx_scan X v → X (valid_len_idx_scan X v - 1) ≤ v) ∧
      (valid_len_idx_scan X v + 1 < 33 → v < X (valid_len_idx_scan X v)) := key
  have h1 : 1 ≤ valid_len_idx_scan X v := by
    by_contra hne
    have hz : valid_len_idx_scan X v = 0 := by omega
    have hs : v < X (valid_len_idx_scan X v) := hstuck (by omega)
    rw [hz] at hs
    exact absurd h0 (not_le.mpr hs)
  refine ⟨h1, ?_, hprev h1, ?_⟩
  · show valid_len_idx_scan X v ≤ 32
    omega
  · by_cases he : valid_len_idx_scan X v = 32
    · exact Or.inr he
    · exact Or.inl (hstuck (by omega))

/-- C16: for a clamped valid length `v` in `[MIN_VALID_LEN, MODEL_PATH_DISTANCE]`, the
`valid_len_idx` of the legacy `fill_model` lies in `1 .. TRAJECTORY_SIZE - 1`,
`X_IDXS[valid_len_idx - 1] ≤ v`, and `v < X_IDXS[valid_len_idx]` unless
`valid_len_idx = TRAJECTORY_SIZE - 1`; so `poly_fit` gets at least one row, every row it
reads is below `TRAJECTORY_SIZE` (filled by `model_init`), and every sample it uses has
grid distance at most `v`. -/
theorem valid_len_idx_bounds (MODEL_PATH_DISTANCE : Nat) (v : K)
    (hmin : (MIN_VALID_LEN : K) ≤ v) (_hmax : v ≤ (MODEL_PATH_DISTANCE : K)) :
    1 ≤ valid_len_idx_scan (model_init_globals : Globals K).X_IDXS v ∧
    valid_len_idx_scan (model_init_globals : Globals K).X_IDXS v ≤ TRAJECTORY_SIZE - 1 ∧
    (model_init_globals : Globals K).X_IDXS
      (valid_len_idx_scan (model_init_globals : Globals K).X_IDXS v - 1) ≤ v ∧
    (v < (model_init_globals : Globals K).X_IDXS
        (valid_len_idx_scan (model_init_globals : Globals K).X_IDXS v) ∨
      valid_len_idx_scan (model_init_globals : Globals K).X_IDXS v = TRAJECTORY_SIZE - 1) ∧
    (∀ i, i < valid_len_idx_scan (model_init_globals : Globals K).X_IDXS v →
      i < TRAJECTORY_SIZE ∧ (model_init_globals : Globals K).X_IDXS i ≤ v) := by
  have h10 : (0 : K) ≤ (MIN_VALID_LEN : K) := Nat.cast_nonneg _
  have h0 : (model_init_globals : Globals K).X_IDXS 0 ≤ v := by
    rw [X_IDXS_zero]; exact le_trans h10 hmin
  obtain ⟨h1, h2, h3, h4⟩ := valid_len_idx_scan_spec (model_init_globals : Globals K).X_IDXS v h0
  refine ⟨h1, h2, h3, h4, ?_⟩
  intro i hi
  have h32 : valid_len_idx_scan (model_init_globals : Globals K).X_IDXS v ≤ 32 := h2
  have hlt : i < 33 := by omega
  refine ⟨hlt, le_trans (X_IDXS_mono i _ (by omega) ?_) h3⟩
  show valid_len_idx_scan (model_init_globals : Globals K).X_IDXS v - 1 < 33
  omega

/-- C16 (witness): for `v = 10` the index is in range and the grid point below it is at
most 10. -/
theorem valid_len_idx_bounds_witness :
    1 ≤ valid_len_idx_scan (model_init_globals : Globals ℚ).X_IDXS 10 ∧
    valid_len_idx_scan (model_init_globals : Globals ℚ).X_IDXS 10 ≤ TRAJECTORY_SIZE - 1 ∧
    (model_init_globals : Globals ℚ).X_IDXS
      (valid_len_idx_scan (model_init_globals : Globals ℚ).X_IDXS 10 - 1) ≤ 10 :=
  have h := valid_len_idx_bounds 192 (10 : ℚ) (by norm_num [MIN_VALID_LEN]) (by norm_num)
  ⟨h.1, h.2.1, h.2.2.1⟩

/-- C15 (witness): on the ramp `planRamp` the scan is at least the last sample. -/
theorem valid_len_scan_is_max_from_one_witness :
    planRamp (30 * 32) ≤ valid_len_scan planRamp :=
  (valid_len_scan_is_max_from_one planRamp).2.1 32 (by decide) (by decide)

end ValidLenScanClaims

section ScaleClaims

variable {K : Type} [LinearOrderedField K]

/-- The linear column of the weighted basis matrix for three rows and unit standard
deviations, over the reals: `0`, `3/16`, `3/4`. -/
theorem linear_column_three_rows (i : Fin 3) :
    poly_fit_lhs (model_init_globals : Globals ℝ).vander (fun _ => 1) 3 i ⟨2, by decide⟩ =
      (192 / 1024) * ((i.val : Nat) : ℝ) ^ 2 := by
  rw [poly_fit_lhs_entry (1 : ℝ) 3 (by decide) i ⟨2, by decide⟩, div_one]
  exact pow_one _

/-- C17 (counterexample): over the reals, for the weighted basis matrix of three rows
with unit standard deviations, the scale of the linear column is `16/15`, the inverse of
the sum `0 + 3/16 + 3/4` of the absolute values, and not the inverse of the
root-sum-of-squares `sqrt(153/256)`. -/
theorem poly_fit_scale_not_root_sum_of_squares :
    poly_fit_scale (poly_fit_lhs (model_init_globals : Globals ℝ).vander (fun _ => 1) 3)
        ⟨2, by decide⟩ ≠
      1 / Real.sqrt (∑ i, (poly_fit_lhs (model_init_globals : Globals ℝ).vander (fun _ => 1) 3 i
        ⟨2, by decide⟩) ^ 2) := by
  have hs : poly_fit_scale (poly_fit_lhs (model_init_globals : Globals ℝ).vander (fun _ => 1) 3)
      ⟨2, by decide⟩ = 16 / 15 := by
    unfold poly_fit_scale sqrt_of_square
    rw [Fin.sum_univ_three]
    simp only [linear_column_three_rows]
    have a0 : |(192 : ℝ) / 1024 * (((0 : Fin 3).val : Nat) : ℝ) ^ 2| = 0 := by norm_num
    have a1 : |(192 : ℝ) / 1024 * (((1 : Fin 3).val : Nat) : ℝ) ^ 2| = 3 / 16 := by
      rw [abs_of_nonneg (by positivity)]; norm_num
    have a2 : |(192 : ℝ) / 1024 * (((2 : Fin 3).val : Nat) : ℝ) ^ 2| = 3 / 4 := by
      rw [abs_of_nonneg (by positivity)]; norm_num
    rw [a0, a1, a2]
    norm_num
  have hq : ∑ i, (poly_fit_lhs (model_init_globals : Globals ℝ).vander (fun _ => 1) 3 i
      ⟨2, by decide⟩) ^ 2 = 153 / 256 := by
    rw [Fin.sum_univ_three]
    simp only [linear_column_three_rows]
    norm_num
  rw [hs, hq]
  intro h
  have hne : Real.sqrt (153 / 256) ≠ 0 := by
    intro h0; rw [h0] at h; norm_num at h
  have hval : Real.sqrt (153 / 256) = 15 / 16 := by
    rw [eq_div_iff hne] at h
    linarith
  have hsq := Real.sq_sqrt (show (0 : ℝ) ≤ 153 / 256 by norm_num)
  rw [hval] at hsq
  norm_num at hsq

/-- C17 (amended): the scale factor that `poly_fit` applies to column `j` is the inverse
of the sum over the rows of the entry-wise square roots `sqrt(lhs(i,j)^2)`, that is the
inverse of the sum of the absolute values of the column. -/
theorem poly_fit_scale_is_inverse_abs_sum {n : Nat}
    (lhs : Matrix (Fin n) (Fin (POLYFIT_DEGREE - 1)) ℝ) (j : Fin (POLYFIT_DEGREE - 1)) :
    poly_fit_scale lhs j = 1 / ∑ i, Real.sqrt (lhs i j * lhs i j) ∧
    poly_fit_scale lhs j = 1 / ∑ i, |lhs i j| := by
  refine ⟨?_, rfl⟩
  unfold poly_fit_scale sqrt_of_square
  simp only [Real.sqrt_mul_self_eq_abs]

end ScaleClaims

section SeriesClaims

variable {K : Type} [LinearOrderedField K]

/-- The arrays filled by the loop of `fill_xyzt`, sample by sample. -/
theorem fill_xyzt_apply (g : Globals K) (data : Nat → K) (columns : Nat) (column_offset : Int)
    (plan_t : Nat → K) (i : Nat) (hi : i < TRAJECTORY_SIZE) :
    (fill_xyzt g data columns column_offset plan_t).t i =
      (if column_offset ≥ 0 then g.T_IDXS i else plan_t i) ∧
    (fill_xyzt g data columns column_offset plan_t).x i =
      (if column_offset ≥ 0 then xyzt_read data columns column_offset i 0 else g.X_IDXS i) ∧
    (fill_xyzt g data columns column_offset plan_t).y i =
      xyzt_read data columns column_offset i 1 ∧
    (fill_xyzt g data columns column_offset plan_t).z i =
      xyzt_read data columns column_offset i 2 := by
  have key := forLoop_induction (fill_xyzt_step g data columns column_offset plan_t)
    (fun k a => ∀ i, i < k →
      a.t i = (if column_offset ≥ 0 then g.T_IDXS i else plan_t i) ∧
      a.x i = (if column_offset ≥ 0 then xyzt_read data columns column_offset i 0
        else g.X_IDXS i) ∧
      a.y i = xyzt_read data columns column_offset i 1 ∧
      a.z i = xyzt_read data columns column_offset i 2)
    TRAJECTORY_SIZE 0 { x := fun _ => 0, y := fun _ => 0, z := fun _ => 0, t := fun _ => 0 }
    (fun i h => by omega)
    (by
      intro k a _ _ hP i hik
      unfold fill_xyzt_step
      by_cases hk : i = k
      · subst hk
        by_cases hc : column_offset ≥ 0 <;> simp [hc]
      · obtain ⟨p1, p2, p3, p4⟩ := hP i (by omega)
        by_cases hc : column_offset ≥ 0 <;> simp [hc, hk, p1, p2, p3, p4])
  exact key i hi

/-- C18 (counterexample): on the ramp `planRamp` read in 30 columns from column 0, with
`plan_t` as the V2 `fill_model` fills it, the emitted `t[1]` is the grid value
`T_IDXS[1] = 10/1024`, not the embedded time field `data[1*30 + 15] = plan_t[1] = 45`. -/
theorem fill_xyzt_time_not_embedded :
    (fill_xyzt (model_init_globals : Globals ℚ) planRamp 30 0
        (fill_model_plan_t headerValues planRamp)).t 1 ≠ planRamp (1 * 30 + 15) := by
  rw [(fill_xyzt_apply (model_init_globals : Globals ℚ) planRamp 30 0
    (fill_model_plan_t headerValues planRamp) 1 (by decide)).1]
  rw [if_pos (le_refl _), (model_init_globals_spec 1 (by decide)).2.1]
  norm_num [planRamp]

/-- C18 (amended): for a time-indexed block (`column_offset ≥ 0`) and every sample
`i < TRAJECTORY_SIZE`, `fill_xyzt` emits `t[i] = T_IDXS[i]`, the fixed time grid, together
with `x[i], y[i], z[i] = data[i*columns + column_offset + 0, 1, 2]`. -/
theorem fill_xyzt_time_indexed (g : Globals K) (data : Nat → K) (columns column_offset : Nat)
    (plan_t : Nat → K) (i : Nat) (hi : i < TRAJECTORY_SIZE) :
    (fill_xyzt g data columns (column_offset : Int) plan_t).t i = g.T_IDXS i ∧
    (fill_xyzt g data columns (column_offset : Int) plan_t).x i =
      data (i * columns + 0 + column_offset) ∧
    (fill_xyzt g data columns (column_offset : Int) plan_t).y i =
      data (i * columns + 1 + column_offset) ∧
    (fill_xyzt g data columns (column_offset : Int) plan_t).z i =
      data (i * columns + 2 + column_offset) := by
  obtain ⟨ht, hx, hy, hz⟩ := fill_xyzt_apply g data columns (column_offset : Int) plan_t i hi
  have hc : (column_offset : Int) ≥ 0 := Int.natCast_nonneg _
  have hr : ∀ c : Nat, xyzt_read data columns (column_offset : Int) i c =
      data (i * columns + c + column_offset) := by
    intro c
    unfold xyzt_read
    congr 1
  rw [ht, hx, hy, hz, if_pos hc, if_pos hc, hr, hr, hr]
  exact ⟨rfl, rfl, rfl, rfl⟩

/-- C18 (witness): sample 1 of the ramp read in 30 columns from column 3. -/
theorem fill_xyzt_time_indexed_witness :
    (fill_xyzt (model_init_globals : Globals ℚ) planRamp 30 ((3 : Nat) : Int) (fun _ => 0)).t 1 =
      (model_init_globals : Globals ℚ).T_IDXS 1 ∧
    (fill_xyzt (model_init_globals : Globals ℚ) planRamp 30 ((3 : Nat) : Int) (fun _ => 0)).x 1 =
      planRamp (1 * 30 + 0 + 3) :=
  have h := fill_xyzt_time_indexed (model_init_globals : Globals ℚ) planRamp 30 3 (fun _ => 0) 1
    (by decide)
  ⟨h.1, h.2.1⟩

end SeriesClaims

section GridClaims

variable {K : Type} [LinearOrderedField K]

/-- C20: after `model_init`, for every `i < TRAJECTORY_SIZE`,
`X_IDXS[i] = 192 * i^2 / 1024`, `T_IDXS[i] = 10 * i^2 / 1024` and
`vander(i, j) = X_IDXS[i]^(POLYFIT_DEGREE - 1 - j)` for `j < POLYFIT_DEGREE - 1`; both
grids start at 0, end at 192 and at 10, and are strictly increasing. -/
theorem model_init_grids (i : Nat) (hi : i < TRAJECTORY_SIZE) :
    (model_init_globals : Globals K).X_IDXS i = 192 * (i : K) ^ 2 / 1024 ∧
    (model_init_globals : Globals K).T_IDXS i = 10 * (i : K) ^ 2 / 1024 ∧
    (∀ j, j < POLYFIT_DEGREE - 1 →
      (model_init_globals : Globals K).vander i j =
        (model_init_globals : Globals K).X_IDXS i ^ (POLYFIT_DEGREE - 1 - j)) ∧
    (model_init_globals : Globals K).X_IDXS 0 = 0 ∧
    (model_init_globals : Globals K).T_IDXS 0 = 0 ∧
    (model_init_globals : Globals K).X_IDXS (TRAJECTORY_SIZE - 1) = 192 ∧
    (model_init_globals : Globals K).T_IDXS (TRAJECTORY_SIZE - 1) = 10 ∧
    (∀ k, k < i →
      (model_init_globals : Globals K).X_IDXS k < (model_init_globals : Globals K).X_IDXS i ∧
      (model_init_globals : Globals K).T_IDXS k < (model_init_globals : Globals K).T_IDXS i) := by
  obtain ⟨hx, ht, hv⟩ := model_init_globals_spec (K := K) i hi
  obtain ⟨hx0, ht0, _⟩ := model_init_globals_spec (K := K) 0 (by decide)
  obtain ⟨hxl, htl, _⟩ := model_init_globals_spec (K := K) (TRAJECTORY_SIZE - 1) (by decide)
  refine ⟨by rw [hx]; ring, by rw [ht]; ring, ?_, by rw [hx0]; simp, by rw [ht0]; simp,
    by rw [hxl]; norm_num, by rw [htl]; norm_num, ?_⟩
  · intro j hj
    have e : POLYFIT_DEGREE - j - 1 = POLYFIT_DEGREE - 1 - j := by omega
    rw [hv j hj, hx, e]
  · intro k hk
    obtain ⟨hxk, htk, _⟩ := model_init_globals_spec (K := K) k (by omega)
    rw [hx, ht, hxk, htk]
    have hc : ((k : Nat) : K) < ((i : Nat) : K) := by exact_mod_cast hk
    have hk0 : (0 : K) ≤ ((k : Nat) : K) := Nat.cast_nonneg k
    have hsq : ((k : Nat) : K) ^ 2 < ((i : Nat) : K) ^ 2 := by nlinarith
    constructor
    · have : (0 : K) < 192 / 1024 := by norm_num
      exact mul_lt_mul_of_pos_left hsq this
    · have : (0 : K) < 10 / 1024 := by norm_num
      exact mul_lt_mul_of_pos_left hsq this

/-- C20 (witness): the grid values of sample 4, `X_IDXS[4] = 3` and `T_IDXS[4] = 5/32`. -/
theorem model_init_grids_witness :
    (model_init_globals : Globals ℚ).X_IDXS 4 = 192 * ((4 : Nat) : ℚ) ^ 2 / 1024 ∧
    (model_init_globals : Globals ℚ).T_IDXS 4 = 10 * ((4 : Nat) : ℚ) ^ 2 / 1024 :=
  have h := model_init_grids (K := ℚ) 4 (by decide)
  ⟨h.1, h.2.1⟩

end GridClaims

end Driving
